import Mathlib

/-!
Verification of the rustboy Game Boy emulator core.

This file gives a shallow embedding, in Lean 4, of the parts of the
rustboy source that the checked claims talk about: the timer
(src/cpu/timer.rs), the joypad (src/joypad.rs), the interrupt controller
(src/cpu/interrupts.rs), the OAM DMA engine (src/dma.rs), the cartridge
memory bank controllers (src/cartridge.rs), the APU register file
(src/apu/*.rs), the PPU scanline state machine (src/ppu/mod.rs), the
memory bus (src/peripherals.rs) and the CPU (src/cpu/mod.rs).

Conventions of the embedding:
* 8- and 16-bit machine integers are plain `Nat` with explicit masking
  (`% 256`, `% 65536`) exactly where the Rust code truncates or wraps.
* Fixed-size byte arrays are total functions `Nat → Nat` together with a
  statically known size; a Rust indexing operation `data[i]` (which can
  panic) is embedded as the checked access `idx size data i : Option Nat`,
  so a `none` result marks exactly the states in which the Rust program
  would panic.  `Vec::get(i).copied().unwrap_or(0xFF)` is embedded as the
  total `getD`.
* `&mut self` methods become state-passing functions; fallible paths
  (array indexing, `%` by a possibly-zero bank count) live in `Option`.
-/

namespace Rustboy

/-- Truncation to 8 bits, Rust `as u8` and `u8` wrapping arithmetic. -/
def wrap8 (x : Nat) : Nat := x % 256

/-- Truncation to 16 bits, Rust `as u16` and `u16` wrapping arithmetic. -/
def wrap16 (x : Nat) : Nat := x % 65536

/-- Rust `u16::wrapping_sub` for values below 2^16. -/
def wsub16 (a b : Nat) : Nat := (a + 65536 - b % 65536) % 65536

/-- Rust `u8::wrapping_sub` for values below 2^8. -/
def wsub8 (a b : Nat) : Nat := (a + 256 - b % 256) % 256

/-- Checked array read: Rust `data[i]` on an array of length `size`.
`none` is a Rust panic. -/
def idx (size : Nat) (data : Nat → Nat) (i : Nat) : Option Nat :=
  if i < size then some (data i) else none

/-- Pointwise array update `data[i] = v`. -/
def upd (data : Nat → Nat) (i v : Nat) : Nat → Nat :=
  fun j => if j = i then v else data j

/-- Rust `Vec::get(i).copied().unwrap_or(0xFF)` on a vector of length `len`. -/
def getD (data : Nat → Nat) (len i : Nat) : Nat :=
  if i < len then data i else 0xFF

/-- Checked remainder: Rust `a % b` panics when `b = 0`. -/
def rmod (a b : Nat) : Option Nat :=
  if b = 0 then none else some (a % b)

/-! ## Timer (src/cpu/timer.rs) -/

/-- Timer state: `Timer` in src/cpu/timer.rs. -/
structure Timer where
  internal_counter : Nat
  tima : Nat
  tma : Nat
  tac : Nat
  interrupt_request : Bool
deriving DecidableEq, Repr

def Timer.new : Timer :=
  { internal_counter := 0, tima := 0, tma := 0, tac := 0, interrupt_request := false }

/-- `Timer::is_enabled`. -/
def Timer.is_enabled (t : Timer) : Bool := t.tac &&& 0x04 != 0

/-- `Timer::get_clock_bit`. -/
def Timer.get_clock_bit (t : Timer) : Nat :=
  match t.tac &&& 0x03 with
  | 0 => 9
  | 1 => 3
  | 2 => 5
  | _ => 7

/-- `Timer::tick`: advance the 16-bit internal counter by one T-cycle and
update TIMA on a falling edge of the selected counter bit. -/
def Timer.tick (t : Timer) : Timer :=
  let old_counter := t.internal_counter
  let t := { t with internal_counter := wrap16 (t.internal_counter + 1) }
  if t.is_enabled then
    let bit := t.get_clock_bit
    let old_bit := (old_counter >>> bit) &&& 1
    let new_bit := (t.internal_counter >>> bit) &&& 1
    if old_bit = 1 ∧ new_bit = 0 then
      if t.tima = 255 then
        { t with tima := t.tma, interrupt_request := true }
      else
        { t with tima := t.tima + 1 }
    else t
  else t

/-- `Timer::read_div`. -/
def Timer.read_div (t : Timer) : Nat := wrap8 (t.internal_counter >>> 8)

/-- `Timer::write_div`. -/
def Timer.write_div (t : Timer) : Timer := { t with internal_counter := 0 }

/-! ## Joypad (src/joypad.rs) -/

/-- Joypad state: `Joypad` in src/joypad.rs. -/
structure Joypad where
  button_keys : Nat
  direction_keys : Nat
  select : Nat
  interrupt_request : Bool
deriving DecidableEq, Repr

def Joypad.new : Joypad :=
  { button_keys := 0x0F, direction_keys := 0x0F, select := 0x30, interrupt_request := false }

/-- `Joypad::read`: build the JOYP byte from the select bits and the two
key groups. -/
def Joypad.read (j : Joypad) : Nat :=
  let result := j.select ||| 0xC0
  let result :=
    if j.select &&& 0x10 = 0 then (result &&& 0xF0) ||| (j.direction_keys &&& 0x0F)
    else result
  let result :=
    if j.select &&& 0x20 = 0 then (result &&& 0xF0) ||| (j.button_keys &&& 0x0F)
    else result
  if j.select &&& 0x30 = 0x30 then result ||| 0x0F else result

/-- `Joypad::write`: only the two select bits are writable. -/
def Joypad.write (j : Joypad) (value : Nat) : Joypad :=
  { j with select := value &&& 0x30 }

/-- `Joypad::get_current_input`: AND of all currently selected groups. -/
def Joypad.get_current_input (j : Joypad) : Nat :=
  let input := 0x0F
  let input := if j.select &&& 0x10 = 0 then input &&& j.direction_keys else input
  if j.select &&& 0x20 = 0 then input &&& j.button_keys else input

/-! ## Interrupts (src/cpu/interrupts.rs) -/

/-- Interrupt kinds, `Interrupt` in src/cpu/interrupts.rs. -/
inductive Interrupt where
  | VBlank
  | Stat
  | Timer
  | Serial
  | Joypad
deriving DecidableEq, Repr

/-- The discriminant of the Rust enum (`Interrupt as u8`). -/
def Interrupt.index : Interrupt → Nat
  | .VBlank => 0
  | .Stat => 1
  | .Timer => 2
  | .Serial => 3
  | .Joypad => 4

/-- `Interrupt::mask`. -/
def Interrupt.mask (i : Interrupt) : Nat := 1 <<< i.index

/-- `Interrupt::handler_address`. -/
def Interrupt.handler_address : Interrupt → Nat
  | .VBlank => 0x0040
  | .Stat => 0x0048
  | .Timer => 0x0050
  | .Serial => 0x0058
  | .Joypad => 0x0060

/-- `Interrupt::all_by_priority`. -/
def Interrupt.all_by_priority : List Interrupt :=
  [.VBlank, .Stat, .Timer, .Serial, .Joypad]

/-- `get_pending_interrupt`: the highest-priority interrupt that is both
requested and enabled.  The Rust `for` loop with early `return` is the
first match in priority order. -/
def get_pending_interrupt (interrupt_flag interrupt_enable : Nat) : Option Interrupt :=
  let pending := interrupt_flag &&& interrupt_enable &&& 0x1F
  if pending = 0 then none
  else Interrupt.all_by_priority.find? (fun i => pending &&& i.mask != 0)

/-- `has_pending_interrupt`. -/
def has_pending_interrupt (interrupt_flag interrupt_enable : Nat) : Bool :=
  interrupt_flag &&& interrupt_enable &&& 0x1F != 0

/-! ## Serial (src/serial.rs) -/

/-- Serial port state: `Serial` in src/serial.rs. -/
structure Serial where
  sb : Nat
  sc : Nat
  transfer_counter : Nat
  bit_counter : Nat
  interrupt_request : Bool
deriving DecidableEq, Repr

def Serial.new : Serial :=
  { sb := 0x00, sc := 0x7E, transfer_counter := 0, bit_counter := 0,
    interrupt_request := false }

/-- `Serial::read_sb`. -/
def Serial.read_sb (s : Serial) : Nat := s.sb

/-- `Serial::write_sb`. -/
def Serial.write_sb (s : Serial) (value : Nat) : Serial := { s with sb := value }

/-- `Serial::read_sc`. -/
def Serial.read_sc (s : Serial) : Nat := s.sc ||| 0x7E

/-- `Serial::write_sc`. -/
def Serial.write_sc (s : Serial) (value : Nat) : Serial :=
  let s := { s with sc := value }
  if value &&& 0x81 = 0x81 then { s with transfer_counter := 0, bit_counter := 0 }
  else s

/-! ## OAM DMA (src/dma.rs) -/

/-- DMA controller state: `Dma` in src/dma.rs. -/
structure Dma where
  active : Bool
  source : Nat
  byte_counter : Nat
  remaining_cycles : Nat
deriving DecidableEq, Repr

def Dma.new : Dma :=
  { active := false, source := 0, byte_counter := 0, remaining_cycles := 0 }

/-- `Dma::start`. -/
def Dma.start (d : Dma) (value : Nat) : Dma :=
  { d with active := true, source := value, byte_counter := 0, remaining_cycles := 640 }

/-- `Dma::read`. -/
def Dma.read (d : Dma) : Nat := d.source

/-- `Dma::source_address`. -/
def Dma.source_address (d : Dma) : Nat := wrap16 (d.source <<< 8)

/-- `Dma::tick`: advance one cycle and return the (source, destination)
pair of the byte to transfer, when one is due. -/
def Dma.tick (d : Dma) : Option (Nat × Nat) × Dma :=
  if !d.active then (none, d)
  else
    let transfer :=
      if d.remaining_cycles % 4 = 0 ∧ d.byte_counter < 160 then
        some (d.source_address + d.byte_counter, 0xFE00 + d.byte_counter)
      else none
    let d := if transfer.isSome then { d with byte_counter := d.byte_counter + 1 } else d
    let d := { d with remaining_cycles := d.remaining_cycles - 1 }
    let d := if d.byte_counter ≥ 160 ∨ d.remaining_cycles = 0 then { d with active := false } else d
    (transfer, d)

/-! ## Cartridge and memory bank controllers (src/cartridge.rs) -/

/-- Cartridge type codes, `CartridgeType` in src/cartridge.rs. -/
inductive CartridgeType where
  | RomOnly
  | Mbc1
  | Mbc1Ram
  | Mbc1RamBattery
  | Mbc2
  | Mbc2Battery
  | Mbc3TimerBattery
  | Mbc3TimerRamBattery
  | Mbc3
  | Mbc3Ram
  | Mbc3RamBattery
  | Mbc5
  | Mbc5Ram
  | Mbc5RamBattery
  | Mbc5Rumble
  | Mbc5RumbleRam
  | Mbc5RumbleRamBattery
  | Unknown (byte : Nat)
deriving DecidableEq, Repr

/-- MBC controller kinds, `MbcKind` in src/cartridge.rs. -/
inductive MbcKind where
  | None
  | Mbc1
  | Mbc2
  | Mbc3
  | Mbc5
deriving DecidableEq, Repr

/-- `CartridgeType::from_byte`. -/
def CartridgeType.from_byte (byte : Nat) : CartridgeType :=
  match byte with
  | 0x00 => .RomOnly
  | 0x01 => .Mbc1
  | 0x02 => .Mbc1Ram
  | 0x03 => .Mbc1RamBattery
  | 0x05 => .Mbc2
  | 0x06 => .Mbc2Battery
  | 0x0F => .Mbc3TimerBattery
  | 0x10 => .Mbc3TimerRamBattery
  | 0x11 => .Mbc3
  | 0x12 => .Mbc3Ram
  | 0x13 => .Mbc3RamBattery
  | 0x19 => .Mbc5
  | 0x1A => .Mbc5Ram
  | 0x1B => .Mbc5RamBattery
  | 0x1C => .Mbc5Rumble
  | 0x1D => .Mbc5RumbleRam
  | 0x1E => .Mbc5RumbleRamBattery
  | other => .Unknown other

/-- `CartridgeType::mbc_kind`. -/
def CartridgeType.mbc_kind : CartridgeType → MbcKind
  | .RomOnly => .None
  | .Mbc1 | .Mbc1Ram | .Mbc1RamBattery => .Mbc1
  | .Mbc2 | .Mbc2Battery => .Mbc2
  | .Mbc3 | .Mbc3Ram | .Mbc3RamBattery
  | .Mbc3TimerBattery | .Mbc3TimerRamBattery => .Mbc3
  | .Mbc5 | .Mbc5Ram | .Mbc5RamBattery
  | .Mbc5Rumble | .Mbc5RumbleRam | .Mbc5RumbleRamBattery => .Mbc5
  | .Unknown _ => .None

/-- MBC1 banking modes, `Mbc1Mode` in src/cartridge.rs. -/
inductive Mbc1Mode where
  | Rom
  | Ram
deriving DecidableEq, Repr

/-- MBC3 real-time-clock registers, `RtcRegisters` in src/cartridge.rs. -/
structure RtcRegisters where
  seconds : Nat
  minutes : Nat
  hours : Nat
  days_low : Nat
  days_high : Nat
deriving DecidableEq, Repr

def RtcRegisters.new : RtcRegisters :=
  { seconds := 0, minutes := 0, hours := 0, days_low := 0, days_high := 0 }

/-- Parsed header, `CartridgeHeader` in src/cartridge.rs. -/
structure CartridgeHeader where
  title : String
  cartridge_type : CartridgeType
  rom_banks : Nat
  ram_size : Nat
deriving DecidableEq, Repr

/-- Cartridge state, `Cartridge` in src/cartridge.rs.  The `rom` and `ram`
vectors are embedded as a content function paired with a length. -/
structure Cartridge where
  rom : Nat → Nat
  romLen : Nat
  ram : Nat → Nat
  ramLen : Nat
  header : CartridgeHeader
  ram_enabled : Bool
  rom_bank : Nat
  ram_bank : Nat
  banking_mode : Mbc1Mode
  rtc : RtcRegisters
  rtc_latched : RtcRegisters
  rtc_latch_pending : Bool
  rtc_mapped : Bool
  rtc_cycle_counter : Nat

namespace Cartridge

/-- `Cartridge::read_rom_none`. -/
def read_rom_none (c : Cartridge) (addr : Nat) : Nat :=
  getD c.rom c.romLen addr

/-- `Cartridge::read_rom_mbc1`.  The `bank % rom_banks` of the source can
divide by zero (a Rust panic), hence the `Option`. -/
def effective_rom_bank_mbc1 (c : Cartridge) : Option Nat :=
  rmod ((c.ram_bank <<< 5) ||| c.rom_bank) c.header.rom_banks

def read_rom_mbc1 (c : Cartridge) (addr : Nat) : Option Nat :=
  if addr ≤ 0x3FFF then
    let bank := if c.banking_mode = Mbc1Mode.Ram then c.ram_bank <<< 5 else 0
    some (getD c.rom c.romLen (bank * 0x4000 + addr))
  else if addr ≤ 0x7FFF then do
    let bank ← c.effective_rom_bank_mbc1
    some (getD c.rom c.romLen (bank * 0x4000 + (addr - 0x4000)))
  else some 0xFF

/-- `Cartridge::write_rom_mbc1`. -/
def write_rom_mbc1 (c : Cartridge) (addr value : Nat) : Cartridge :=
  if addr ≤ 0x1FFF then
    { c with ram_enabled := value &&& 0x0F = 0x0A }
  else if addr ≤ 0x3FFF then
    let bank := value &&& 0x1F
    { c with rom_bank := if bank = 0 then 1 else bank }
  else if addr ≤ 0x5FFF then
    { c with ram_bank := value &&& 0x03 }
  else if addr ≤ 0x7FFF then
    { c with banking_mode := if value &&& 0x01 = 0 then .Rom else .Ram }
  else c

/-- `Cartridge::read_ram_mbc1`. -/
def read_ram_mbc1 (c : Cartridge) (addr : Nat) : Nat :=
  if !c.ram_enabled ∨ c.ramLen = 0 then 0xFF
  else
    let bank := if c.banking_mode = Mbc1Mode.Ram then c.ram_bank else 0
    getD c.ram c.ramLen (bank * 0x2000 + (addr - 0xA000))

/-- `Cartridge::write_ram_mbc1`. -/
def write_ram_mbc1 (c : Cartridge) (addr value : Nat) : Cartridge :=
  if !c.ram_enabled ∨ c.ramLen = 0 then c
  else
    let bank := if c.banking_mode = Mbc1Mode.Ram then c.ram_bank else 0
    let offset := bank * 0x2000 + (addr - 0xA000)
    if offset < c.ramLen then { c with ram := upd c.ram offset value } else c

/-- `Cartridge::read_rom_mbc2`. -/
def read_rom_mbc2 (c : Cartridge) (addr : Nat) : Option Nat :=
  if addr ≤ 0x3FFF then some (getD c.rom c.romLen addr)
  else if addr ≤ 0x7FFF then do
    let bank ← rmod c.rom_bank c.header.rom_banks
    some (getD c.rom c.romLen (bank * 0x4000 + (addr - 0x4000)))
  else some 0xFF

/-- `Cartridge::write_rom_mbc2`. -/
def write_rom_mbc2 (c : Cartridge) (addr value : Nat) : Cartridge :=
  if addr ≤ 0x3FFF then
    if addr &&& 0x0100 = 0 then
      { c with ram_enabled := value &&& 0x0F = 0x0A }
    else
      let bank := value &&& 0x0F
      { c with rom_bank := if bank = 0 then 1 else bank }
  else c

/-- `Cartridge::read_ram_mbc2`. -/
def read_ram_mbc2 (c : Cartridge) (addr : Nat) : Nat :=
  if !c.ram_enabled ∨ c.ramLen = 0 then 0xFF
  else
    let offset := (addr - 0xA000) &&& 0x01FF
    if offset < c.ramLen then c.ram offset ||| 0xF0 else 0xFF

/-- `Cartridge::write_ram_mbc2`. -/
def write_ram_mbc2 (c : Cartridge) (addr value : Nat) : Cartridge :=
  if !c.ram_enabled ∨ c.ramLen = 0 then c
  else
    let offset := (addr - 0xA000) &&& 0x01FF
    if offset < c.ramLen then { c with ram := upd c.ram offset (value &&& 0x0F) } else c

/-- `Cartridge::read_rom_mbc3`. -/
def read_rom_mbc3 (c : Cartridge) (addr : Nat) : Option Nat :=
  if addr ≤ 0x3FFF then some (getD c.rom c.romLen addr)
  else if addr ≤ 0x7FFF then do
    let bank ← rmod c.rom_bank c.header.rom_banks
    some (getD c.rom c.romLen (bank * 0x4000 + (addr - 0x4000)))
  else some 0xFF

/-- `Cartridge::write_rom_mbc3`. -/
def write_rom_mbc3 (c : Cartridge) (addr value : Nat) : Cartridge :=
  if addr ≤ 0x1FFF then
    { c with ram_enabled := value &&& 0x0F = 0x0A }
  else if addr ≤ 0x3FFF then
    let bank := value &&& 0x7F
    { c with rom_bank := if bank = 0 then 1 else bank }
  else if addr ≤ 0x5FFF then
    { c with ram_bank := value, rtc_mapped := 0x08 ≤ value ∧ value ≤ 0x0C }
  else if addr ≤ 0x7FFF then
    if value = 0x00 then { c with rtc_latch_pending := true }
    else if value = 0x01 ∧ c.rtc_latch_pending then
      { c with rtc_latched := c.rtc, rtc_latch_pending := false }
    else { c with rtc_latch_pending := false }
  else c

/-- `Cartridge::read_ram_mbc3`. -/
def read_ram_mbc3 (c : Cartridge) (addr : Nat) : Nat :=
  if !c.ram_enabled then 0xFF
  else if c.rtc_mapped then
    match c.ram_bank with
    | 0x08 => c.rtc_latched.seconds
    | 0x09 => c.rtc_latched.minutes
    | 0x0A => c.rtc_latched.hours
    | 0x0B => c.rtc_latched.days_low
    | 0x0C => c.rtc_latched.days_high
    | _ => 0xFF
  else if c.ramLen = 0 then 0xFF
  else
    let bank := c.ram_bank &&& 0x03
    getD c.ram c.ramLen (bank * 0x2000 + (addr - 0xA000))

/-- `Cartridge::write_ram_mbc3`. -/
def write_ram_mbc3 (c : Cartridge) (addr value : Nat) : Cartridge :=
  if !c.ram_enabled then c
  else if c.rtc_mapped then
    match c.ram_bank with
    | 0x08 => { c with rtc.seconds := value &&& 0x3F }
    | 0x09 => { c with rtc.minutes := value &&& 0x3F }
    | 0x0A => { c with rtc.hours := value &&& 0x1F }
    | 0x0B => { c with rtc.days_low := value }
    | 0x0C => { c with rtc.days_high := value &&& 0xC1 }
    | _ => c
  else if c.ramLen = 0 then c
  else
    let bank := c.ram_bank &&& 0x03
    let offset := bank * 0x2000 + (addr - 0xA000)
    if offset < c.ramLen then { c with ram := upd c.ram offset value } else c

/-- `Cartridge::read_rom_mbc5`. -/
def read_rom_mbc5 (c : Cartridge) (addr : Nat) : Option Nat :=
  if addr ≤ 0x3FFF then some (getD c.rom c.romLen addr)
  else if addr ≤ 0x7FFF then do
    let bank ← rmod c.rom_bank c.header.rom_banks
    some (getD c.rom c.romLen (bank * 0x4000 + (addr - 0x4000)))
  else some 0xFF

/-- `Cartridge::write_rom_mbc5`. -/
def write_rom_mbc5 (c : Cartridge) (addr value : Nat) : Cartridge :=
  if addr ≤ 0x1FFF then
    { c with ram_enabled := value &&& 0x0F = 0x0A }
  else if addr ≤ 0x2FFF then
    { c with rom_bank := (c.rom_bank &&& 0x100) ||| wrap8 value }
  else if addr ≤ 0x3FFF then
    { c with rom_bank := (c.rom_bank &&& 0x0FF) ||| ((value &&& 0x01) <<< 8) }
  else if addr ≤ 0x5FFF then
    { c with ram_bank := value &&& 0x0F }
  else c

/-- `Cartridge::read_ram_mbc5`. -/
def read_ram_mbc5 (c : Cartridge) (addr : Nat) : Nat :=
  if !c.ram_enabled ∨ c.ramLen = 0 then 0xFF
  else getD c.ram c.ramLen (c.ram_bank * 0x2000 + (addr - 0xA000))

/-- `Cartridge::write_ram_mbc5`. -/
def write_ram_mbc5 (c : Cartridge) (addr value : Nat) : Cartridge :=
  if !c.ram_enabled ∨ c.ramLen = 0 then c
  else
    let offset := c.ram_bank * 0x2000 + (addr - 0xA000)
    if offset < c.ramLen then { c with ram := upd c.ram offset value } else c

/-- `Cartridge::read_rom`: dispatch on the MBC kind. -/
def read_rom (c : Cartridge) (addr : Nat) : Option Nat :=
  match c.header.cartridge_type.mbc_kind with
  | .None => some (c.read_rom_none addr)
  | .Mbc1 => c.read_rom_mbc1 addr
  | .Mbc2 => c.read_rom_mbc2 addr
  | .Mbc3 => c.read_rom_mbc3 addr
  | .Mbc5 => c.read_rom_mbc5 addr

/-- `Cartridge::write_rom`. -/
def write_rom (c : Cartridge) (addr value : Nat) : Cartridge :=
  match c.header.cartridge_type.mbc_kind with
  | .None => c
  | .Mbc1 => c.write_rom_mbc1 addr value
  | .Mbc2 => c.write_rom_mbc2 addr value
  | .Mbc3 => c.write_rom_mbc3 addr value
  | .Mbc5 => c.write_rom_mbc5 addr value

/-- `Cartridge::read_ram`. -/
def read_ram (c : Cartridge) (addr : Nat) : Nat :=
  match c.header.cartridge_type.mbc_kind with
  | .None => 0xFF
  | .Mbc1 => c.read_ram_mbc1 addr
  | .Mbc2 => c.read_ram_mbc2 addr
  | .Mbc3 => c.read_ram_mbc3 addr
  | .Mbc5 => c.read_ram_mbc5 addr

/-- `Cartridge::write_ram`. -/
def write_ram (c : Cartridge) (addr value : Nat) : Cartridge :=
  match c.header.cartridge_type.mbc_kind with
  | .None => c
  | .Mbc1 => c.write_ram_mbc1 addr value
  | .Mbc2 => c.write_ram_mbc2 addr value
  | .Mbc3 => c.write_ram_mbc3 addr value
  | .Mbc5 => c.write_ram_mbc5 addr value

end Cartridge

/-! ## APU channels (src/apu/pulse.rs, wave.rs, noise.rs)

The embedding covers the register file of each channel (the reads and
writes reachable from the bus) and the trigger logic.  The per-cycle
`tick`/`clock_*`/`output` paths and the floating-point DAC output are not
reachable from any checked claim and are not embedded. -/

/-- Pulse channel state, `PulseChannel` in src/apu/pulse.rs. -/
structure PulseChannel where
  enabled : Bool
  dac_enabled : Bool
  duty : Nat
  length_counter : Nat
  length_enabled : Bool
  envelope_initial : Nat
  envelope_direction : Bool
  envelope_period : Nat
  volume : Nat
  envelope_timer : Nat
  frequency : Nat
  frequency_timer : Nat
  duty_position : Nat
  sweep_enabled : Bool
  sweep_period : Nat
  sweep_negate : Bool
  sweep_shift : Nat
  sweep_timer : Nat
  sweep_shadow : Nat
  sweep_negate_used : Bool
  has_sweep : Bool
deriving DecidableEq, Repr

namespace PulseChannel

/-- `PulseChannel::new`. -/
def new (has_sweep : Bool) : PulseChannel :=
  { enabled := false, dac_enabled := false, duty := 0, length_counter := 0,
    length_enabled := false, envelope_initial := 0, envelope_direction := false,
    envelope_period := 0, volume := 0, envelope_timer := 0, frequency := 0,
    frequency_timer := 0, duty_position := 0, sweep_enabled := false,
    sweep_period := 0, sweep_negate := false, sweep_shift := 0, sweep_timer := 0,
    sweep_shadow := 0, sweep_negate_used := false, has_sweep := has_sweep }

/-- `PulseChannel::read_sweep`. -/
def read_sweep (ch : PulseChannel) : Nat :=
  0x80 ||| (ch.sweep_period <<< 4) ||| (if ch.sweep_negate then 0x08 else 0x00)
       ||| ch.sweep_shift

/-- `PulseChannel::write_sweep`. -/
def write_sweep (ch : PulseChannel) (value : Nat) : PulseChannel :=
  let new_negate := value &&& 0x08 ≠ 0
  let ch :=
    if ch.sweep_negate ∧ ¬new_negate ∧ ch.sweep_negate_used then
      { ch with enabled := false }
    else ch
  { ch with sweep_period := (value >>> 4) &&& 0x07, sweep_negate := new_negate,
            sweep_shift := value &&& 0x07 }

/-- `PulseChannel::read_length_duty`. -/
def read_length_duty (ch : PulseChannel) : Nat := (ch.duty <<< 6) ||| 0x3F

/-- `PulseChannel::write_length_duty`. -/
def write_length_duty (ch : PulseChannel) (value : Nat) : PulseChannel :=
  { ch with duty := (value >>> 6) &&& 0x03, length_counter := 64 - (value &&& 0x3F) }

/-- `PulseChannel::read_envelope`. -/
def read_envelope (ch : PulseChannel) : Nat :=
  (ch.envelope_initial <<< 4) ||| (if ch.envelope_direction then 0x08 else 0x00)
    ||| ch.envelope_period

/-- `PulseChannel::write_envelope`. -/
def write_envelope (ch : PulseChannel) (value : Nat) : PulseChannel :=
  let dac := value &&& 0xF8 ≠ 0
  { ch with envelope_initial := (value >>> 4) &&& 0x0F,
            envelope_direction := value &&& 0x08 ≠ 0,
            envelope_period := value &&& 0x07,
            dac_enabled := dac,
            enabled := if dac then ch.enabled else false }

/-- `PulseChannel::write_frequency_low`. -/
def write_frequency_low (ch : PulseChannel) (value : Nat) : PulseChannel :=
  { ch with frequency := (ch.frequency &&& 0x700) ||| wrap8 value }

/-- `PulseChannel::read_frequency_high`. -/
def read_frequency_high (ch : PulseChannel) : Nat :=
  0xBF ||| (if ch.length_enabled then 0x40 else 0x00)

/-- `PulseChannel::calculate_sweep_frequency` (also records that the
negate direction was used). -/
def calculate_sweep_frequency (ch : PulseChannel) : Nat × PulseChannel :=
  let shifted := ch.sweep_shadow >>> ch.sweep_shift
  if ch.sweep_negate then
    (wsub16 ch.sweep_shadow shifted, { ch with sweep_negate_used := true })
  else
    (wrap16 (ch.sweep_shadow + shifted), ch)

/-- `PulseChannel::trigger`. -/
def trigger (ch : PulseChannel) : PulseChannel :=
  let ch := { ch with enabled := ch.dac_enabled }
  let ch := if ch.length_counter = 0 then { ch with length_counter := 64 } else ch
  let ch := { ch with frequency_timer := (2048 - ch.frequency) * 4 }
  let ch := { ch with volume := ch.envelope_initial,
                      envelope_timer := if ch.envelope_period = 0 then 8 else ch.envelope_period }
  if ch.has_sweep then
    let ch := { ch with sweep_shadow := ch.frequency,
                        sweep_timer := if ch.sweep_period = 0 then 8 else ch.sweep_period,
                        sweep_enabled := ch.sweep_period ≠ 0 ∨ ch.sweep_shift ≠ 0,
                        sweep_negate_used := false }
    if ch.sweep_shift ≠ 0 then
      let (new_freq, ch) := ch.calculate_sweep_frequency
      if new_freq > 2047 then { ch with enabled := false } else ch
    else ch
  else ch

/-- `PulseChannel::write_frequency_high`. -/
def write_frequency_high (ch : PulseChannel) (value : Nat) : PulseChannel :=
  let ch := { ch with length_enabled := value &&& 0x40 ≠ 0,
                      frequency := (ch.frequency &&& 0x00FF) ||| ((value &&& 0x07) <<< 8) }
  if value &&& 0x80 ≠ 0 then ch.trigger else ch

end PulseChannel

/-- Wave channel state, `WaveChannel` in src/apu/wave.rs. -/
structure WaveChannel where
  enabled : Bool
  dac_enabled : Bool
  length_counter : Nat
  length_enabled : Bool
  output_level : Nat
  frequency : Nat
  frequency_timer : Nat
  wave_ram : Nat → Nat
  sample_position : Nat
  sample_buffer : Nat

namespace WaveChannel

/-- `WaveChannel::new`. -/
def new : WaveChannel :=
  { enabled := false, dac_enabled := false, length_counter := 0,
    length_enabled := false, output_level := 0, frequency := 0,
    frequency_timer := 0, wave_ram := fun _ => 0, sample_position := 0,
    sample_buffer := 0 }

/-- `WaveChannel::read_dac`. -/
def read_dac (ch : WaveChannel) : Nat :=
  0x7F ||| (if ch.dac_enabled then 0x80 else 0x00)

/-- `WaveChannel::write_dac`. -/
def write_dac (ch : WaveChannel) (value : Nat) : WaveChannel :=
  let dac := value &&& 0x80 ≠ 0
  { ch with dac_enabled := dac, enabled := if dac then ch.enabled else false }

/-- `WaveChannel::write_length`. -/
def write_length (ch : WaveChannel) (value : Nat) : WaveChannel :=
  { ch with length_counter := 256 - wrap8 value }

/-- `WaveChannel::read_output_level`. -/
def read_output_level (ch : WaveChannel) : Nat := 0x9F ||| (ch.output_level <<< 5)

/-- `WaveChannel::write_output_level`. -/
def write_output_level (ch : WaveChannel) (value : Nat) : WaveChannel :=
  { ch with output_level := (value >>> 5) &&& 0x03 }

/-- `WaveChannel::write_frequency_low`. -/
def write_frequency_low (ch : WaveChannel) (value : Nat) : WaveChannel :=
  { ch with frequency := (ch.frequency &&& 0x700) ||| wrap8 value }

/-- `WaveChannel::read_frequency_high`. -/
def read_frequency_high (ch : WaveChannel) : Nat :=
  0xBF ||| (if ch.length_enabled then 0x40 else 0x00)

/-- `WaveChannel::trigger`. -/
def trigger (ch : WaveChannel) : WaveChannel :=
  let ch := { ch with enabled := ch.dac_enabled }
  let ch := if ch.length_counter = 0 then { ch with length_counter := 256 } else ch
  { ch with frequency_timer := (2048 - ch.frequency) * 2, sample_position := 0 }

/-- `WaveChannel::write_frequency_high`. -/
def write_frequency_high (ch : WaveChannel) (value : Nat) : WaveChannel :=
  let ch := { ch with length_enabled := value &&& 0x40 ≠ 0,
                      frequency := (ch.frequency &&& 0x00FF) ||| ((value &&& 0x07) <<< 8) }
  if value &&& 0x80 ≠ 0 then ch.trigger else ch

/-- `WaveChannel::read_wave_ram`. -/
def read_wave_ram (ch : WaveChannel) (addr : Nat) : Nat :=
  let index := addr - 0xFF30
  if index < 16 then ch.wave_ram index else 0xFF

/-- `WaveChannel::write_wave_ram`. -/
def write_wave_ram (ch : WaveChannel) (addr value : Nat) : WaveChannel :=
  let index := addr - 0xFF30
  if index < 16 then { ch with wave_ram := upd ch.wave_ram index value } else ch

end WaveChannel

/-- Noise channel state, `NoiseChannel` in src/apu/noise.rs. -/
structure NoiseChannel where
  enabled : Bool
  dac_enabled : Bool
  length_counter : Nat
  length_enabled : Bool
  envelope_initial : Nat
  envelope_direction : Bool
  envelope_period : Nat
  volume : Nat
  envelope_timer : Nat
  clock_shift : Nat
  width_mode : Bool
  divisor_code : Nat
  lfsr : Nat
  frequency_timer : Nat
deriving DecidableEq, Repr

namespace NoiseChannel

/-- The divisor table `DIVISOR_TABLE` of src/apu/noise.rs. -/
def divisor_table : List Nat := [8, 16, 32, 48, 64, 80, 96, 112]

/-- `NoiseChannel::new`. -/
def new : NoiseChannel :=
  { enabled := false, dac_enabled := false, length_counter := 0,
    length_enabled := false, envelope_initial := 0, envelope_direction := false,
    envelope_period := 0, volume := 0, envelope_timer := 0, clock_shift := 0,
    width_mode := false, divisor_code := 0, lfsr := 0x7FFF, frequency_timer := 0 }

/-- `NoiseChannel::write_length`. -/
def write_length (ch : NoiseChannel) (value : Nat) : NoiseChannel :=
  { ch with length_counter := 64 - (value &&& 0x3F) }

/-- `NoiseChannel::read_envelope`. -/
def read_envelope (ch : NoiseChannel) : Nat :=
  (ch.envelope_initial <<< 4) ||| (if ch.envelope_direction then 0x08 else 0x00)
    ||| ch.envelope_period

/-- `NoiseChannel::write_envelope`. -/
def write_envelope (ch : NoiseChannel) (value : Nat) : NoiseChannel :=
  let dac := value &&& 0xF8 ≠ 0
  { ch with envelope_initial := (value >>> 4) &&& 0x0F,
            envelope_direction := value &&& 0x08 ≠ 0,
            envelope_period := value &&& 0x07,
            dac_enabled := dac,
            enabled := if dac then ch.enabled else false }

/-- `NoiseChannel::read_polynomial`. -/
def read_polynomial (ch : NoiseChannel) : Nat :=
  (ch.clock_shift <<< 4) ||| (if ch.width_mode then 0x08 else 0x00) ||| ch.divisor_code

/-- `NoiseChannel::write_polynomial`. -/
def write_polynomial (ch : NoiseChannel) (value : Nat) : NoiseChannel :=
  { ch with clock_shift := (value >>> 4) &&& 0x0F,
            width_mode := value &&& 0x08 ≠ 0,
            divisor_code := value &&& 0x07 }

/-- `NoiseChannel::read_control`. -/
def read_control (ch : NoiseChannel) : Nat :=
  0xBF ||| (if ch.length_enabled then 0x40 else 0x00)

/-- `NoiseChannel::get_period` (indexing the eight-entry divisor table;
`divisor_code` is masked to three bits at every write). -/
def get_period (ch : NoiseChannel) : Nat :=
  (divisor_table.getD ch.divisor_code 0) <<< ch.clock_shift

/-- `NoiseChannel::trigger`. -/
def trigger (ch : NoiseChannel) : NoiseChannel :=
  let ch := { ch with enabled := ch.dac_enabled }
  let ch := if ch.length_counter = 0 then { ch with length_counter := 64 } else ch
  { ch with frequency_timer := ch.get_period, lfsr := 0x7FFF,
            volume := ch.envelope_initial,
            envelope_timer := if ch.envelope_period = 0 then 8 else ch.envelope_period }

/-- `NoiseChannel::write_control`. -/
def write_control (ch : NoiseChannel) (value : Nat) : NoiseChannel :=
  let ch := { ch with length_enabled := value &&& 0x40 ≠ 0 }
  if value &&& 0x80 ≠ 0 then ch.trigger else ch

end NoiseChannel

/-! ## APU core (src/apu/mod.rs)

The audio sample pipeline (`sample_buffer`, `downsample_counter`,
`sample_rate`, `generate_sample`) produces `f32` samples; those fields and
paths are outside the embedding.  The register file, power control and
frame-sequencer counters are embedded. -/

/-- I/O register addresses from src/memory_map.rs (`io_registers`). -/
def NR10 : Nat := 0xFF10
def NR11 : Nat := 0xFF11
def NR12 : Nat := 0xFF12
def NR13 : Nat := 0xFF13
def NR14 : Nat := 0xFF14
def NR21 : Nat := 0xFF16
def NR22 : Nat := 0xFF17
def NR23 : Nat := 0xFF18
def NR24 : Nat := 0xFF19
def NR30 : Nat := 0xFF1A
def NR31 : Nat := 0xFF1B
def NR32 : Nat := 0xFF1C
def NR33 : Nat := 0xFF1D
def NR34 : Nat := 0xFF1E
def NR41 : Nat := 0xFF20
def NR42 : Nat := 0xFF21
def NR43 : Nat := 0xFF22
def NR44 : Nat := 0xFF23
def NR50 : Nat := 0xFF24
def NR51 : Nat := 0xFF25
def NR52 : Nat := 0xFF26
def WAVE_RAM_START : Nat := 0xFF30
def WAVE_RAM_END : Nat := 0xFF3F

/-- APU state, `Apu` in src/apu/mod.rs. -/
structure Apu where
  channel1 : PulseChannel
  channel2 : PulseChannel
  channel3 : WaveChannel
  channel4 : NoiseChannel
  vin_left : Bool
  left_volume : Nat
  vin_right : Bool
  right_volume : Nat
  panning : Nat
  power : Bool
  frame_sequencer_timer : Nat
  frame_sequencer_step : Nat

namespace Apu

/-- `Apu::new`. -/
def new : Apu :=
  { channel1 := PulseChannel.new true, channel2 := PulseChannel.new false,
    channel3 := WaveChannel.new, channel4 := NoiseChannel.new,
    vin_left := false, left_volume := 0, vin_right := false, right_volume := 0,
    panning := 0x00, power := false, frame_sequencer_timer := 8192,
    frame_sequencer_step := 0 }

/-- `Apu::read_nr50`. -/
def read_nr50 (a : Apu) : Nat :=
  (if a.vin_left then 0x80 else 0x00) ||| (a.left_volume <<< 4)
    ||| (if a.vin_right then 0x08 else 0x00) ||| a.right_volume

/-- `Apu::write_nr50`. -/
def write_nr50 (a : Apu) (value : Nat) : Apu :=
  { a with vin_left := value &&& 0x80 ≠ 0, left_volume := (value >>> 4) &&& 0x07,
           vin_right := value &&& 0x08 ≠ 0, right_volume := value &&& 0x07 }

/-- `Apu::read_nr52`. -/
def read_nr52 (a : Apu) : Nat :=
  0x70 ||| (if a.power then 0x80 else 0x00)
       ||| (if a.channel4.enabled then 0x08 else 0x00)
       ||| (if a.channel3.enabled then 0x04 else 0x00)
       ||| (if a.channel2.enabled then 0x02 else 0x00)
       ||| (if a.channel1.enabled then 0x01 else 0x00)

/-- `Apu::power_off`: reset every channel, preserving the wave table. -/
def power_off (a : Apu) : Apu :=
  { a with channel1 := PulseChannel.new true,
           channel2 := PulseChannel.new false,
           channel3 := { WaveChannel.new with wave_ram := a.channel3.wave_ram },
           channel4 := NoiseChannel.new,
           vin_left := false, left_volume := 0, vin_right := false,
           right_volume := 0, panning := 0 }

/-- `Apu::write_nr52`. -/
def write_nr52 (a : Apu) (value : Nat) : Apu :=
  let new_power := value &&& 0x80 ≠ 0
  let a :=
    if a.power ∧ ¬new_power then a.power_off
    else if ¬a.power ∧ new_power then { a with frame_sequencer_step := 0 }
    else a
  { a with power := new_power }

/-- `Apu::read`. -/
def read (a : Apu) (addr : Nat) : Nat :=
  if ¬a.power ∧ addr ≠ NR52 then
    if WAVE_RAM_START ≤ addr ∧ addr ≤ WAVE_RAM_END then a.channel3.read_wave_ram addr
    else 0xFF
  else
    if addr = NR10 then a.channel1.read_sweep
    else if addr = NR11 then a.channel1.read_length_duty
    else if addr = NR12 then a.channel1.read_envelope
    else if addr = NR13 then 0xFF
    else if addr = NR14 then a.channel1.read_frequency_high
    else if addr = NR21 then a.channel2.read_length_duty
    else if addr = NR22 then a.channel2.read_envelope
    else if addr = NR23 then 0xFF
    else if addr = NR24 then a.channel2.read_frequency_high
    else if addr = NR30 then a.channel3.read_dac
    else if addr = NR31 then 0xFF
    else if addr = NR32 then a.channel3.read_output_level
    else if addr = NR33 then 0xFF
    else if addr = NR34 then a.channel3.read_frequency_high
    else if addr = NR41 then 0xFF
    else if addr = NR42 then a.channel4.read_envelope
    else if addr = NR43 then a.channel4.read_polynomial
    else if addr = NR44 then a.channel4.read_control
    else if addr = NR50 then a.read_nr50
    else if addr = NR51 then a.panning
    else if addr = NR52 then a.read_nr52
    else if WAVE_RAM_START ≤ addr ∧ addr ≤ WAVE_RAM_END then a.channel3.read_wave_ram addr
    else 0xFF

/-- `Apu::write`. -/
def write (a : Apu) (addr value : Nat) : Apu :=
  if WAVE_RAM_START ≤ addr ∧ addr ≤ WAVE_RAM_END then
    { a with channel3 := a.channel3.write_wave_ram addr value }
  else if addr = NR52 then a.write_nr52 value
  else if ¬a.power then
    if addr = NR11 then { a with channel1 := a.channel1.write_length_duty value }
    else if addr = NR21 then { a with channel2 := a.channel2.write_length_duty value }
    else if addr = NR31 then { a with channel3 := a.channel3.write_length value }
    else if addr = NR41 then { a with channel4 := a.channel4.write_length value }
    else a
  else
    if addr = NR10 then { a with channel1 := a.channel1.write_sweep value }
    else if addr = NR11 then { a with channel1 := a.channel1.write_length_duty value }
    else if addr = NR12 then { a with channel1 := a.channel1.write_envelope value }
    else if addr = NR13 then { a with channel1 := a.channel1.write_frequency_low value }
    else if addr = NR14 then { a with channel1 := a.channel1.write_frequency_high value }
    else if addr = NR21 then { a with channel2 := a.channel2.write_length_duty value }
    else if addr = NR22 then { a with channel2 := a.channel2.write_envelope value }
    else if addr = NR23 then { a with channel2 := a.channel2.write_frequency_low value }
    else if addr = NR24 then { a with channel2 := a.channel2.write_frequency_high value }
    else if addr = NR30 then { a with channel3 := a.channel3.write_dac value }
    else if addr = NR31 then { a with channel3 := a.channel3.write_length value }
    else if addr = NR32 then { a with channel3 := a.channel3.write_output_level value }
    else if addr = NR33 then { a with channel3 := a.channel3.write_frequency_low value }
    else if addr = NR34 then { a with channel3 := a.channel3.write_frequency_high value }
    else if addr = NR41 then { a with channel4 := a.channel4.write_length value }
    else if addr = NR42 then { a with channel4 := a.channel4.write_envelope value }
    else if addr = NR43 then { a with channel4 := a.channel4.write_polynomial value }
    else if addr = NR44 then { a with channel4 := a.channel4.write_control value }
    else if addr = NR50 then a.write_nr50 value
    else if addr = NR51 then { a with panning := value }
    else a

end Apu

/-! ## PPU (src/ppu/mod.rs, registers.rs, vram.rs, timing.rs)

The pixel pipeline of `draw_scanline` writes only to the `framebuffer`
and `bg_color_ids` output arrays, which no bus read or claim observes;
those two arrays are outside the embedding.  Its one side effect on
embedded state — the window-internal line counter incremented by
`draw_window_scanline` — is kept, with the loop over screen columns
replaced by its observable effect (the loop body runs iff the column
range `window_x_start..160` is non-empty, and `window_x_start ≤ 159`
whenever `wx ≤ 166`). -/

/-- PPU modes, `PpuMode` in src/ppu/mod.rs. -/
inductive PpuMode where
  | HBlank
  | VBlank
  | OamScan
  | Drawing
deriving DecidableEq, Repr

/-- The discriminant of the Rust enum (`PpuMode as u8`). -/
def PpuMode.toNat : PpuMode → Nat
  | .HBlank => 0
  | .VBlank => 1
  | .OamScan => 2
  | .Drawing => 3

/-- PPU registers, `PpuRegisters` in src/ppu/registers.rs. -/
structure PpuRegisters where
  lcdc : Nat
  stat : Nat
  scy : Nat
  scx : Nat
  ly : Nat
  lyc : Nat
  bgp : Nat
  obp0 : Nat
  obp1 : Nat
  wy : Nat
  wx : Nat
deriving DecidableEq, Repr

namespace PpuRegisters

/-- `PpuRegisters::new`. -/
def new : PpuRegisters :=
  { lcdc := 0x91, stat := 0x00, scy := 0x00, scx := 0x00, ly := 0x00,
    lyc := 0x00, bgp := 0xFC, obp0 := 0xFF, obp1 := 0xFF, wy := 0x00, wx := 0x00 }

/-- `PpuRegisters::is_lcd_enabled`. -/
def is_lcd_enabled (r : PpuRegisters) : Bool := r.lcdc &&& 0x80 != 0

/-- `PpuRegisters::is_window_enabled`. -/
def is_window_enabled (r : PpuRegisters) : Bool := r.lcdc &&& 0x20 != 0

/-- `PpuRegisters::is_bg_enabled`. -/
def is_bg_enabled (r : PpuRegisters) : Bool := r.lcdc &&& 0x01 != 0

end PpuRegisters

/-- Video memory, `Vram` in src/ppu/vram.rs. -/
structure Vram where
  data : Nat → Nat
  access_count : Nat

namespace Vram

/-- `Vram::new`. -/
def new : Vram := { data := fun _ => 0, access_count := 0 }

/-- `Vram::read` (relative address, internally bounds-guarded). -/
def read (v : Vram) (address : Nat) : Nat :=
  if address < 0x2000 then v.data address else 0xFF

/-- `Vram::write`. -/
def write (v : Vram) (address value : Nat) : Vram :=
  if address < 0x2000 then
    { v with data := upd v.data address value, access_count := v.access_count + 1 }
  else v

end Vram

/-- PPU state, `Ppu` in src/ppu/mod.rs (minus the `framebuffer` and
`bg_color_ids` output arrays, see the section comment). -/
structure Ppu where
  registers : PpuRegisters
  vram : Vram
  oam : Nat → Nat
  mode : PpuMode
  cycles : Nat
  scanline : Nat
  window_line_counter : Nat
  vblank_interrupt : Bool
  stat_interrupt : Bool

namespace Ppu

/-- `Ppu::new`. -/
def new : Ppu :=
  { registers := PpuRegisters.new, vram := Vram.new, oam := fun _ => 0,
    mode := .OamScan, cycles := 0, scanline := 0, window_line_counter := 0,
    vblank_interrupt := false, stat_interrupt := false }

/-- Effect of `Ppu::draw_window_scanline` on the embedded state: the
window-internal line counter increments iff the window is enabled, in
range, and at least one window pixel was emitted (the column loop
`window_x_start..160` is non-empty because `wx ≤ 166` bounds
`window_x_start` by 159). -/
def draw_window_scanline (p : Ppu) (y : Nat) : Ppu :=
  if ¬p.registers.is_window_enabled then p
  else if p.registers.wx > 166 ∨ p.registers.wy > 143 then p
  else if y < p.registers.wy then p
  else { p with window_line_counter := p.window_line_counter + 1 }

/-- Effect of `Ppu::draw_scanline` on the embedded state (the background
and sprite passes write only to the framebuffer). -/
def draw_scanline (p : Ppu) : Ppu :=
  let y := p.scanline
  if y ≥ 144 then p
  else if ¬p.registers.is_bg_enabled then p
  else p.draw_window_scanline y

/-- `Ppu::step`: advance the scanline state machine by one dot.  The
`Bool` result is `true` exactly on the dot that enters VBlank (the Rust
`return true`, which also skips the trailing STAT update). -/
def step (p : Ppu) : Ppu × Bool :=
  let p := { p with cycles := p.cycles + 1 }
  let p := { p with registers.ly := p.scanline }
  let finish := fun (p : Ppu) =>
    ({ p with registers.stat := (p.registers.stat &&& 0xFC) ||| p.mode.toNat }, false)
  match p.mode with
  | .OamScan =>
      if p.cycles ≥ 80 then finish { p with mode := .Drawing, cycles := 0 }
      else finish p
  | .Drawing =>
      if p.cycles ≥ 172 then
        let p := { p with mode := .HBlank, cycles := 0 }
        let p := if p.registers.is_lcd_enabled then p.draw_scanline else p
        finish p
      else finish p
  | .HBlank =>
      if p.cycles ≥ 204 then
        let p := { p with scanline := p.scanline + 1, cycles := 0 }
        if p.scanline ≥ 144 then
          ({ p with mode := .VBlank, vblank_interrupt := true }, true)
        else finish { p with mode := .OamScan }
      else finish p
  | .VBlank =>
      if p.cycles ≥ 456 then
        let p := { p with scanline := p.scanline + 1, cycles := 0 }
        if p.scanline ≥ 154 then
          finish { p with scanline := 0, window_line_counter := 0, mode := .OamScan }
        else finish p
      else finish p

/-- `Ppu::read_vram` (absolute bus address). -/
def read_vram (p : Ppu) (address : Nat) : Nat := p.vram.read (address - 0x8000)

/-- `Ppu::write_vram` (blocked during Drawing). -/
def write_vram (p : Ppu) (address value : Nat) : Ppu :=
  if p.mode ≠ .Drawing then { p with vram := p.vram.write (address - 0x8000) value }
  else p

/-- `Ppu::read_oam`: a checked access into the 160-byte OAM array. -/
def read_oam (p : Ppu) (address : Nat) : Option Nat :=
  idx 160 p.oam (address - 0xFE00)

/-- `Ppu::write_oam` (blocked during Drawing and OAMScan). -/
def write_oam (p : Ppu) (address value : Nat) : Option Ppu :=
  if p.mode ≠ .Drawing ∧ p.mode ≠ .OamScan then
    let i := address - 0xFE00
    if i < 160 then some { p with oam := upd p.oam i value } else none
  else some p

end Ppu

/-- Expected PPU mode for a (scanline, dot) position, `get_expected_mode`
in src/ppu/timing.rs. -/
def get_expected_mode (scanline cycle_in_line : Nat) : PpuMode :=
  if scanline ≥ 144 then .VBlank
  else if cycle_in_line < 80 then .OamScan
  else if cycle_in_line < 80 + 172 then .Drawing
  else .HBlank

/-! ## Plain memories (src/memory/bootrom.rs, wram.rs, hram.rs) -/

/-- Boot ROM, `BootRom` in src/memory/bootrom.rs; the data box always
holds exactly 256 bytes (enforced by `BootRom::new`). -/
structure BootRom where
  data : Nat → Nat
  active : Bool

namespace BootRom

/-- `BootRom::new_dummy`. -/
def new_dummy : BootRom :=
  { data := fun a => if a = 0xFC then 0xC3 else if a = 0xFD then 0x00
                     else if a = 0xFE then 0x01 else 0x00,
    active := true }

/-- `BootRom::read`. -/
def read (b : BootRom) (addr : Nat) : Option Nat :=
  if ¬b.active then some 0xFF
  else if addr > 0xFF then some 0xFF
  else idx 256 b.data addr

/-- `BootRom::is_active`. -/
def is_active (b : BootRom) : Bool := b.active

/-- `BootRom::write_disable_register`. -/
def write_disable_register (b : BootRom) (value : Nat) : BootRom :=
  if value ≠ 0 then { b with active := false } else b

end BootRom

/-- Work RAM, `WorkRam` in src/memory/wram.rs (8 KiB array). -/
structure WorkRam where
  data : Nat → Nat

namespace WorkRam

def new : WorkRam := { data := fun _ => 0 }

/-- `WorkRam::addr_to_index`. -/
def addr_to_index (addr : Nat) : Nat := (addr - 0xC000) &&& 0x1FFF

/-- `WorkRam::read`. -/
def read (w : WorkRam) (addr : Nat) : Option Nat := idx 0x2000 w.data (addr_to_index addr)

/-- `WorkRam::write`. -/
def write (w : WorkRam) (addr value : Nat) : Option WorkRam :=
  if addr_to_index addr < 0x2000 then
    some { w with data := upd w.data (addr_to_index addr) value }
  else none

end WorkRam

/-- High RAM, `HighRam` in src/memory/hram.rs (127-byte array). -/
structure HighRam where
  data : Nat → Nat

namespace HighRam

def new : HighRam := { data := fun _ => 0 }

/-- `HighRam::addr_to_index`. -/
def addr_to_index (addr : Nat) : Nat := addr - 0xFF80

/-- `HighRam::read`. -/
def read (h : HighRam) (addr : Nat) : Option Nat := idx 0x7F h.data (addr_to_index addr)

/-- `HighRam::write`. -/
def write (h : HighRam) (addr value : Nat) : Option HighRam :=
  if addr_to_index addr < 0x7F then
    some { h with data := upd h.data (addr_to_index addr) value }
  else none

end HighRam

/-! ## Bus (src/peripherals.rs) -/

/-- Bus state, `Peripherals` in src/peripherals.rs. -/
structure Peripherals where
  bootrom : BootRom
  wram : WorkRam
  hram : HighRam
  ppu : Ppu
  timer : Timer
  joypad : Joypad
  dma : Dma
  cartridge : Option Cartridge
  serial : Serial
  apu : Apu
  interrupt_flag : Nat
  interrupt_enable : Nat
  read_count : Nat
  write_count : Nat

namespace Peripherals

/-- `Peripherals::new`. -/
def new (bootrom : BootRom) : Peripherals :=
  { bootrom := bootrom, wram := WorkRam.new, hram := HighRam.new,
    ppu := Ppu.new, timer := Timer.new, joypad := Joypad.new, dma := Dma.new,
    cartridge := none, serial := Serial.new, apu := Apu.new,
    interrupt_flag := 0x00, interrupt_enable := 0x00,
    read_count := 0, write_count := 0 }

/-- `Peripherals::read_io` (0xFF00–0xFF7F). -/
def read_io (p : Peripherals) (addr : Nat) : Nat :=
  if addr = 0xFF00 then p.joypad.read
  else if addr = 0xFF01 then p.serial.read_sb
  else if addr = 0xFF02 then p.serial.read_sc
  else if addr = 0xFF40 then p.ppu.registers.lcdc
  else if addr = 0xFF41 then
    let mode := p.ppu.mode.toNat
    let lyc_flag := if p.ppu.scanline = p.ppu.registers.lyc then 0x04 else 0x00
    (p.ppu.registers.stat &&& 0xF8) ||| lyc_flag ||| mode
  else if addr = 0xFF42 then p.ppu.registers.scy
  else if addr = 0xFF43 then p.ppu.registers.scx
  else if addr = 0xFF44 then p.ppu.scanline
  else if addr = 0xFF45 then p.ppu.registers.lyc
  else if addr = 0xFF46 then p.dma.read
  else if addr = 0xFF47 then p.ppu.registers.bgp
  else if addr = 0xFF48 then p.ppu.registers.obp0
  else if addr = 0xFF49 then p.ppu.registers.obp1
  else if addr = 0xFF4A then p.ppu.registers.wy
  else if addr = 0xFF4B then p.ppu.registers.wx
  else if addr = 0xFF04 then p.timer.read_div
  else if addr = 0xFF05 then p.timer.tima
  else if addr = 0xFF06 then p.timer.tma
  else if addr = 0xFF07 then p.timer.tac ||| 0xF8
  else if (NR10 ≤ addr ∧ addr ≤ NR52) ∨ (WAVE_RAM_START ≤ addr ∧ addr ≤ WAVE_RAM_END) then
    p.apu.read addr
  else if addr = 0xFF0F then p.interrupt_flag ||| 0xE0
  else if addr = 0xFF50 then 0xFF
  else 0xFF

/-- `Peripherals::read`.  A `none` marks a state where the Rust code
would panic on an out-of-bounds array index or a `%` by a zero bank
count; the trailing `none` is the (unreachable for 16-bit addresses)
fall-through of the exhaustive Rust `match`. -/
def read (p : Peripherals) (addr : Nat) : Option (Nat × Peripherals) := do
  let p := { p with read_count := p.read_count + 1 }
  let value ←
    if addr ≤ 0x00FF then
      if p.bootrom.is_active then p.bootrom.read addr
      else match p.cartridge with
        | some cart => cart.read_rom addr
        | none => some 0xFF
    else if addr ≤ 0x7FFF then
      match p.cartridge with
      | some cart => cart.read_rom addr
      | none => some 0xFF
    else if addr ≤ 0x9FFF then some (p.ppu.read_vram addr)
    else if addr ≤ 0xBFFF then
      match p.cartridge with
      | some cart => some (cart.read_ram addr)
      | none => some 0xFF
    else if addr ≤ 0xDFFF then p.wram.read addr
    else if addr ≤ 0xFDFF then p.wram.read (0xC000 + (addr - 0xE000))
    else if addr ≤ 0xFE9F then p.ppu.read_oam addr
    else if addr ≤ 0xFEFF then some 0xFF
    else if addr ≤ 0xFF7F then some (p.read_io addr)
    else if addr ≤ 0xFFFE then p.hram.read addr
    else if addr = 0xFFFF then some p.interrupt_enable
    else none
  some (value, p)

/-- `Peripherals::write_io` (0xFF00–0xFF7F). -/
def write_io (p : Peripherals) (addr value : Nat) : Peripherals :=
  if addr = 0xFF00 then { p with joypad := p.joypad.write value }
  else if addr = 0xFF01 then { p with serial := p.serial.write_sb value }
  else if addr = 0xFF02 then { p with serial := p.serial.write_sc value }
  else if addr = 0xFF40 then { p with ppu.registers.lcdc := value }
  else if addr = 0xFF41 then
    { p with ppu.registers.stat := (value &&& 0xF8) ||| (p.ppu.registers.stat &&& 0x07) }
  else if addr = 0xFF42 then { p with ppu.registers.scy := value }
  else if addr = 0xFF43 then { p with ppu.registers.scx := value }
  else if addr = 0xFF44 then p
  else if addr = 0xFF45 then { p with ppu.registers.lyc := value }
  else if addr = 0xFF46 then { p with dma := p.dma.start value }
  else if addr = 0xFF47 then { p with ppu.registers.bgp := value }
  else if addr = 0xFF48 then { p with ppu.registers.obp0 := value }
  else if addr = 0xFF49 then { p with ppu.registers.obp1 := value }
  else if addr = 0xFF4A then { p with ppu.registers.wy := value }
  else if addr = 0xFF4B then { p with ppu.registers.wx := value }
  else if addr = 0xFF04 then { p with timer := p.timer.write_div }
  else if addr = 0xFF05 then { p with timer.tima := value }
  else if addr = 0xFF06 then { p with timer.tma := value }
  else if addr = 0xFF07 then { p with timer.tac := value &&& 0x07 }
  else if (NR10 ≤ addr ∧ addr ≤ NR52) ∨ (WAVE_RAM_START ≤ addr ∧ addr ≤ WAVE_RAM_END) then
    { p with apu := p.apu.write addr value }
  else if addr = 0xFF0F then { p with interrupt_flag := value &&& 0x1F }
  else if addr = 0xFF50 then { p with bootrom := p.bootrom.write_disable_register value }
  else p

/-- `Peripherals::write` (same `Option` convention as `read`). -/
def write (p : Peripherals) (addr value : Nat) : Option Peripherals := do
  let p := { p with write_count := p.write_count + 1 }
  if addr ≤ 0x00FF then
    match p.cartridge with
    | some cart => some { p with cartridge := some (cart.write_rom addr value) }
    | none => some p
  else if addr ≤ 0x7FFF then
    match p.cartridge with
    | some cart => some { p with cartridge := some (cart.write_rom addr value) }
    | none => some p
  else if addr ≤ 0x9FFF then some { p with ppu := p.ppu.write_vram addr value }
  else if addr ≤ 0xBFFF then
    match p.cartridge with
    | some cart => some { p with cartridge := some (cart.write_ram addr value) }
    | none => some p
  else if addr ≤ 0xDFFF then do
    let w ← p.wram.write addr value
    some { p with wram := w }
  else if addr ≤ 0xFDFF then do
    let w ← p.wram.write (0xC000 + (addr - 0xE000)) value
    some { p with wram := w }
  else if addr ≤ 0xFE9F then do
    let ppu ← p.ppu.write_oam addr value
    some { p with ppu := ppu }
  else if addr ≤ 0xFEFF then some p
  else if addr ≤ 0xFF7F then some (p.write_io addr value)
  else if addr ≤ 0xFFFE then do
    let h ← p.hram.write addr value
    some { p with hram := h }
  else if addr = 0xFFFF then some { p with interrupt_enable := value }
  else none

/-- `Peripherals::dma_read`: the DMA source fetch (reads every region
except OAM and I/O). -/
def dma_read (p : Peripherals) (addr : Nat) : Option Nat :=
  if addr ≤ 0x00FF then
    if p.bootrom.is_active then p.bootrom.read addr
    else match p.cartridge with
      | some cart => cart.read_rom addr
      | none => some 0xFF
  else if addr ≤ 0x7FFF then
    match p.cartridge with
    | some cart => cart.read_rom addr
    | none => some 0xFF
  else if addr ≤ 0x9FFF then some (p.ppu.read_vram addr)
  else if addr ≤ 0xBFFF then
    match p.cartridge with
    | some cart => some (cart.read_ram addr)
    | none => some 0xFF
  else if addr ≤ 0xDFFF then p.wram.read addr
  else if addr ≤ 0xFDFF then p.wram.read (0xC000 + (addr - 0xE000))
  else some 0xFF

/-- Body of the DMA block of `Peripherals::tick`: fetch the source byte
through `dma_read` and store it into OAM when the (guarded) offset is in
range. -/
def dmaCopy (p : Peripherals) (src dst : Nat) : Option Peripherals :=
  match p.dma_read src with
  | none => none
  | some value =>
      let oam_offset := dst - 0xFE00
      if oam_offset < 160 then
        some { p with ppu.oam := upd p.ppu.oam oam_offset value }
      else
        some p

/-- The DMA block of `Peripherals::tick` (one cycle): advance the DMA
engine and, when a byte is due, copy it from `dma_read` into OAM. -/
def dmaCycle (p : Peripherals) : Option Peripherals :=
  match p.dma.tick with
  | (some (src, dst), dma) => dmaCopy { p with dma := dma } src dst
  | (none, dma) => some { p with dma := dma }

end Peripherals

/-! ## CPU registers (src/cpu/registers.rs) -/

/-- CPU register file, `Registers` in src/cpu/registers.rs. -/
structure Registers where
  a : Nat
  f : Nat
  b : Nat
  c : Nat
  d : Nat
  e : Nat
  h : Nat
  l : Nat
  sp : Nat
  pc : Nat
deriving DecidableEq, Repr

namespace Registers

/-- `Registers::new`. -/
def new : Registers :=
  { a := 0, f := 0, b := 0, c := 0, d := 0, e := 0, h := 0, l := 0,
    sp := 0, pc := 0 }

def get_af (r : Registers) : Nat := (r.a <<< 8) ||| r.f
def get_bc (r : Registers) : Nat := (r.b <<< 8) ||| r.c
def get_de (r : Registers) : Nat := (r.d <<< 8) ||| r.e
def get_hl (r : Registers) : Nat := (r.h <<< 8) ||| r.l

/-- `Registers::set_af` (the low nibble of F is forced to zero). -/
def set_af (r : Registers) (value : Nat) : Registers :=
  { r with a := wrap8 (value >>> 8), f := wrap8 (value &&& 0xF0) }

def set_bc (r : Registers) (value : Nat) : Registers :=
  { r with b := wrap8 (value >>> 8), c := wrap8 value }

def set_de (r : Registers) (value : Nat) : Registers :=
  { r with d := wrap8 (value >>> 8), e := wrap8 value }

def set_hl (r : Registers) (value : Nat) : Registers :=
  { r with h := wrap8 (value >>> 8), l := wrap8 value }

/-- `Registers::get_flag_z`. -/
def get_flag_z (r : Registers) : Bool := r.f &&& 0x80 != 0

/-- `Registers::get_flag_c`. -/
def get_flag_c (r : Registers) : Bool := r.f &&& 0x10 != 0

end Registers

/-! ## CPU (src/cpu/mod.rs) -/

/-- CPU state, `Cpu` in src/cpu/mod.rs. -/
structure Cpu where
  registers : Registers
  ime : Bool
  ime_pending : Bool
  halted : Bool
  instruction_count : Nat
deriving DecidableEq, Repr

namespace Cpu

/-- `Cpu::new`. -/
def new : Cpu :=
  { registers := Registers.new, ime := false, ime_pending := false,
    halted := false, instruction_count := 0 }

/-- Sign extension of an `i8` byte into a `u16` bit pattern
(Rust `as i8 as u16`, for the relative-jump offsets). -/
def sign_extend8 (b : Nat) : Nat := if b < 128 then b else 0xFF00 + b

/-- `Cpu::push_word`. -/
def push_word (cpu : Cpu) (per : Peripherals) (value : Nat) :
    Option (Cpu × Peripherals) :=
  match per.write (wsub16 cpu.registers.sp 1) (wrap8 (value >>> 8)) with
  | none => none
  | some per1 =>
    match per1.write (wsub16 (wsub16 cpu.registers.sp 1) 1) (wrap8 value) with
    | none => none
    | some per2 =>
        some ({ cpu with registers.sp := wsub16 (wsub16 cpu.registers.sp 1) 1 }, per2)

/-- `Cpu::pop_word`. -/
def pop_word (cpu : Cpu) (per : Peripherals) :
    Option (Nat × Cpu × Peripherals) := do
  let (low, per) ← per.read cpu.registers.sp
  let cpu := { cpu with registers.sp := wrap16 (cpu.registers.sp + 1) }
  let (high, per) ← per.read cpu.registers.sp
  let cpu := { cpu with registers.sp := wrap16 (cpu.registers.sp + 1) }
  some ((high <<< 8) ||| low, cpu, per)

/-- `Cpu::fetch_byte`. -/
def fetch_byte (cpu : Cpu) (per : Peripherals) :
    Option (Nat × Cpu × Peripherals) := do
  let (value, per) ← per.read cpu.registers.pc
  some (value, { cpu with registers.pc := wrap16 (cpu.registers.pc + 1) }, per)

/-- `Cpu::fetch_word` (little endian). -/
def fetch_word (cpu : Cpu) (per : Peripherals) :
    Option (Nat × Cpu × Peripherals) := do
  let (low, cpu, per) ← fetch_byte cpu per
  let (high, cpu, per) ← fetch_byte cpu per
  some ((high <<< 8) ||| low, cpu, per)

/-- `Cpu::get_r8`: the 8-entry register coding of the low opcode bits;
index 6 is the byte at (HL).  The Rust `unreachable!()` arm is a panic. -/
def get_r8 (cpu : Cpu) (index : Nat) (per : Peripherals) :
    Option (Nat × Peripherals) :=
  match index with
  | 0 => some (cpu.registers.b, per)
  | 1 => some (cpu.registers.c, per)
  | 2 => some (cpu.registers.d, per)
  | 3 => some (cpu.registers.e, per)
  | 4 => some (cpu.registers.h, per)
  | 5 => some (cpu.registers.l, per)
  | 6 => per.read cpu.registers.get_hl
  | 7 => some (cpu.registers.a, per)
  | _ => none

/-- `Cpu::set_r8`. -/
def set_r8 (cpu : Cpu) (index value : Nat) (per : Peripherals) :
    Option (Cpu × Peripherals) :=
  match index with
  | 0 => some ({ cpu with registers.b := value }, per)
  | 1 => some ({ cpu with registers.c := value }, per)
  | 2 => some ({ cpu with registers.d := value }, per)
  | 3 => some ({ cpu with registers.e := value }, per)
  | 4 => some ({ cpu with registers.h := value }, per)
  | 5 => some ({ cpu with registers.l := value }, per)
  | 6 => do
      let per ← per.write cpu.registers.get_hl value
      some (cpu, per)
  | 7 => some ({ cpu with registers.a := value }, per)
  | _ => none

/-- `Cpu::alu_add` (ADD when `with_carry = false`, ADC otherwise). -/
def alu_add (cpu : Cpu) (value : Nat) (with_carry : Bool) : Cpu :=
  let carry := if with_carry ∧ cpu.registers.f &&& 0x10 ≠ 0 then 1 else 0
  let a := cpu.registers.a
  let result := a + value + carry
  let half := (a &&& 0x0F) + (value &&& 0x0F) + carry
  let newA := wrap8 result
  let f := 0
  let f := if newA = 0 then f ||| 0x80 else f
  let f := if half > 0x0F then f ||| 0x20 else f
  let f := if result > 0xFF then f ||| 0x10 else f
  { cpu with registers.a := newA, registers.f := f }

/-- `Cpu::alu_sub` (SUB when `with_carry = false`, SBC otherwise);
the borrow tests use the `u16` wrapping subtractions of the source. -/
def alu_sub (cpu : Cpu) (value : Nat) (with_carry : Bool) : Cpu :=
  let carry := if with_carry ∧ cpu.registers.f &&& 0x10 ≠ 0 then 1 else 0
  let a := cpu.registers.a
  let result := wsub16 (wsub16 a value) carry
  let half := wsub16 (wsub16 (a &&& 0x0F) (value &&& 0x0F)) carry
  let newA := wrap8 result
  let f := 0x40
  let f := if newA = 0 then f ||| 0x80 else f
  let f := if half > 0x0F then f ||| 0x20 else f
  let f := if result > 0xFF then f ||| 0x10 else f
  { cpu with registers.a := newA, registers.f := f }

/-- `Cpu::alu_and`. -/
def alu_and (cpu : Cpu) (value : Nat) : Cpu :=
  let newA := cpu.registers.a &&& value
  { cpu with registers.a := newA,
             registers.f := if newA = 0 then 0x20 ||| 0x80 else 0x20 }

/-- `Cpu::alu_xor`. -/
def alu_xor (cpu : Cpu) (value : Nat) : Cpu :=
  let newA := cpu.registers.a ^^^ value
  { cpu with registers.a := newA,
             registers.f := if newA = 0 then 0x80 else 0 }

/-- `Cpu::alu_or`. -/
def alu_or (cpu : Cpu) (value : Nat) : Cpu :=
  let newA := cpu.registers.a ||| value
  { cpu with registers.a := newA,
             registers.f := if newA = 0 then 0x80 else 0 }

/-- `Cpu::alu_cp` (compare: subtraction flags, A unchanged). -/
def alu_cp (cpu : Cpu) (value : Nat) : Cpu :=
  let a := cpu.registers.a
  let cpu := cpu.alu_sub value false
  { cpu with registers.a := a }

/-- `Cpu::alu_inc`. -/
def alu_inc (cpu : Cpu) (value : Nat) : Nat × Cpu :=
  let result := wrap8 (value + 1)
  let carry := cpu.registers.f &&& 0x10
  let f := carry
  let f := if result = 0 then f ||| 0x80 else f
  let f := if (value &&& 0x0F) + 1 > 0x0F then f ||| 0x20 else f
  (result, { cpu with registers.f := f })

/-- `Cpu::alu_dec`. -/
def alu_dec (cpu : Cpu) (value : Nat) : Nat × Cpu :=
  let result := wsub8 value 1
  let carry := cpu.registers.f &&& 0x10
  let f := carry ||| 0x40
  let f := if result = 0 then f ||| 0x80 else f
  let f := if value &&& 0x0F = 0 then f ||| 0x20 else f
  (result, { cpu with registers.f := f })

/-- `Cpu::alu_add_hl`. -/
def alu_add_hl (cpu : Cpu) (value : Nat) : Cpu :=
  let hl := cpu.registers.get_hl
  let result := hl + value
  let z := cpu.registers.f &&& 0x80
  let f := z
  let f := if (hl &&& 0x0FFF) + (value &&& 0x0FFF) > 0x0FFF then f ||| 0x20 else f
  let f := if result > 0xFFFF then f ||| 0x10 else f
  { cpu with registers := ({ cpu.registers with f := f }).set_hl (wrap16 result) }

/-- `Cpu::alu_daa` (BCD adjust; the Rust `i16` arithmetic is embedded as
`Int`, and `a & 0x0F` on the — there nonnegative — accumulator as
`a % 16`). -/
def alu_daa (cpu : Cpu) : Cpu :=
  let a : Int := cpu.registers.a
  let n := cpu.registers.f &&& 0x40 ≠ 0
  let h := cpu.registers.f &&& 0x20 ≠ 0
  let c := cpu.registers.f &&& 0x10 ≠ 0
  let state : Int × Nat :=
    if ¬n then
      let (a, f) := if c ∨ a > 0x99 then (a + 0x60, cpu.registers.f ||| 0x10)
                    else (a, cpu.registers.f)
      let a := if h ∨ a % 16 > 0x09 then a + 0x06 else a
      (a, f)
    else
      let a := if c then a - 0x60 else a
      let a := if h then a - 0x06 else a
      (a, cpu.registers.f)
  let newA := (state.1 % 256).toNat
  let f := state.2 &&& 0x5F
  let f := if newA = 0 then f ||| 0x80 else f &&& 0x7F
  { cpu with registers.a := newA, registers.f := f }

/-- `Cpu::execute_cb`: the CB-prefixed rotate/shift/BIT/RES/SET table. -/
def execute_cb (cpu : Cpu) (per : Peripherals) (opcode : Nat) :
    Option (Except String Nat × Cpu × Peripherals) := do
  let reg_index := opcode &&& 0x07
  let (value, per) ← cpu.get_r8 reg_index per
  let is_hl := reg_index = 6
  let (result, cpu) : Option Nat × Cpu :=
    if opcode ≤ 0x07 then
      let carry := value >>> 7
      let r := wrap8 ((value <<< 1) ||| carry)
      let f := 0
      let f := if r = 0 then f ||| 0x80 else f
      let f := if carry ≠ 0 then f ||| 0x10 else f
      (some r, { cpu with registers.f := f })
    else if opcode ≤ 0x0F then
      let carry := value &&& 1
      let r := (value >>> 1) ||| (carry <<< 7)
      let f := 0
      let f := if r = 0 then f ||| 0x80 else f
      let f := if carry ≠ 0 then f ||| 0x10 else f
      (some r, { cpu with registers.f := f })
    else if opcode ≤ 0x17 then
      let old_carry := (cpu.registers.f >>> 4) &&& 1
      let new_carry := value >>> 7
      let r := wrap8 ((value <<< 1) ||| old_carry)
      let f := 0
      let f := if r = 0 then f ||| 0x80 else f
      let f := if new_carry ≠ 0 then f ||| 0x10 else f
      (some r, { cpu with registers.f := f })
    else if opcode ≤ 0x1F then
      let old_carry := (cpu.registers.f >>> 4) &&& 1
      let new_carry := value &&& 1
      let r := (value >>> 1) ||| (old_carry <<< 7)
      let f := 0
      let f := if r = 0 then f ||| 0x80 else f
      let f := if new_carry ≠ 0 then f ||| 0x10 else f
      (some r, { cpu with registers.f := f })
    else if opcode ≤ 0x27 then
      let carry := value >>> 7
      let r := wrap8 (value <<< 1)
      let f := 0
      let f := if r = 0 then f ||| 0x80 else f
      let f := if carry ≠ 0 then f ||| 0x10 else f
      (some r, { cpu with registers.f := f })
    else if opcode ≤ 0x2F then
      let carry := value &&& 1
      let r := (value >>> 1) ||| (value &&& 0x80)
      let f := 0
      let f := if r = 0 then f ||| 0x80 else f
      let f := if carry ≠ 0 then f ||| 0x10 else f
      (some r, { cpu with registers.f := f })
    else if opcode ≤ 0x37 then
      let r := (value >>> 4) ||| wrap8 (value <<< 4)
      let f := if r = 0 then 0x80 else 0
      (some r, { cpu with registers.f := f })
    else if opcode ≤ 0x3F then
      let carry := value &&& 1
      let r := value >>> 1
      let f := 0
      let f := if r = 0 then f ||| 0x80 else f
      let f := if carry ≠ 0 then f ||| 0x10 else f
      (some r, { cpu with registers.f := f })
    else if opcode ≤ 0x7F then
      let bit := (opcode >>> 3) &&& 0x07
      let z := if value &&& (1 <<< bit) = 0 then 0x80 else 0x00
      (none, { cpu with registers.f := z ||| 0x20 ||| (cpu.registers.f &&& 0x10) })
    else if opcode ≤ 0xBF then
      let bit := (opcode >>> 3) &&& 0x07
      (some (value &&& (255 ^^^ (1 <<< bit))), cpu)
    else
      let bit := (opcode >>> 3) &&& 0x07
      (some (value ||| (1 <<< bit)), cpu)
  match result with
  | some r => do
      let (cpu, per) ← cpu.set_r8 reg_index r per
      some (.ok (if is_hl then 16 else 8), cpu, per)
  | none => some (.ok (if is_hl then 16 else 8), cpu, per)

set_option maxRecDepth 16384

/-- `Cpu::execute_instruction`: the 256-entry primary opcode table.  The
Rust catch-all `Err(format!(...))` becomes a fixed error string (the
message text carries no behavior). -/
def execute_instruction (cpu : Cpu) (per : Peripherals) (opcode : Nat) :
    Option (Except String Nat × Cpu × Peripherals) := do
  if opcode = 0x00 then
    some (.ok 4, cpu, per)
  else if opcode = 0x01 then do
    let (v, cpu, per) ← fetch_word cpu per
    some (.ok 12, { cpu with registers := cpu.registers.set_bc v }, per)
  else if opcode = 0x11 then do
    let (v, cpu, per) ← fetch_word cpu per
    some (.ok 12, { cpu with registers := cpu.registers.set_de v }, per)
  else if opcode = 0x21 then do
    let (v, cpu, per) ← fetch_word cpu per
    some (.ok 12, { cpu with registers := cpu.registers.set_hl v }, per)
  else if opcode = 0x31 then do
    let (v, cpu, per) ← fetch_word cpu per
    some (.ok 12, { cpu with registers.sp := v }, per)
  else if opcode = 0x06 then do
    let (v, cpu, per) ← fetch_byte cpu per
    some (.ok 8, { cpu with registers.b := v }, per)
  else if opcode = 0x0E then do
    let (v, cpu, per) ← fetch_byte cpu per
    some (.ok 8, { cpu with registers.c := v }, per)
  else if opcode = 0x16 then do
    let (v, cpu, per) ← fetch_byte cpu per
    some (.ok 8, { cpu with registers.d := v }, per)
  else if opcode = 0x1E then do
    let (v, cpu, per) ← fetch_byte cpu per
    some (.ok 8, { cpu with registers.e := v }, per)
  else if opcode = 0x26 then do
    let (v, cpu, per) ← fetch_byte cpu per
    some (.ok 8, { cpu with registers.h := v }, per)
  else if opcode = 0x2E then do
    let (v, cpu, per) ← fetch_byte cpu per
    some (.ok 8, { cpu with registers.l := v }, per)
  else if opcode = 0x36 then do
    let (v, cpu, per) ← fetch_byte cpu per
    let per ← per.write cpu.registers.get_hl v
    some (.ok 12, cpu, per)
  else if opcode = 0x3E then do
    let (v, cpu, per) ← fetch_byte cpu per
    some (.ok 8, { cpu with registers.a := v }, per)
  else if (0x40 ≤ opcode ∧ opcode ≤ 0x75) ∨ (0x77 ≤ opcode ∧ opcode ≤ 0x7F) then do
    let dst := (opcode >>> 3) &&& 0x07
    let src := opcode &&& 0x07
    let (value, per) ← cpu.get_r8 src per
    let (cpu, per) ← cpu.set_r8 dst value per
    some (.ok (if src = 6 ∨ dst = 6 then 8 else 4), cpu, per)
  else if opcode = 0x76 then
    some (.ok 4, { cpu with halted := true }, per)
  else if opcode = 0x02 then do
    let per ← per.write cpu.registers.get_bc cpu.registers.a
    some (.ok 8, cpu, per)
  else if opcode = 0x12 then do
    let per ← per.write cpu.registers.get_de cpu.registers.a
    some (.ok 8, cpu, per)
  else if opcode = 0x0A then do
    let (v, per) ← per.read cpu.registers.get_bc
    some (.ok 8, { cpu with registers.a := v }, per)
  else if opcode = 0x1A then do
    let (v, per) ← per.read cpu.registers.get_de
    some (.ok 8, { cpu with registers.a := v }, per)
  else if opcode = 0x22 then do
    let addr := cpu.registers.get_hl
    let per ← per.write addr cpu.registers.a
    some (.ok 8, { cpu with registers := cpu.registers.set_hl (wrap16 (addr + 1)) }, per)
  else if opcode = 0x32 then do
    let addr := cpu.registers.get_hl
    let per ← per.write addr cpu.registers.a
    some (.ok 8, { cpu with registers := cpu.registers.set_hl (wsub16 addr 1) }, per)
  else if opcode = 0x2A then do
    let addr := cpu.registers.get_hl
    let (v, per) ← per.read addr
    let cpu := { cpu with registers.a := v }
    some (.ok 8, { cpu with registers := cpu.registers.set_hl (wrap16 (addr + 1)) }, per)
  else if opcode = 0x3A then do
    let addr := cpu.registers.get_hl
    let (v, per) ← per.read addr
    let cpu := { cpu with registers.a := v }
    some (.ok 8, { cpu with registers := cpu.registers.set_hl (wsub16 addr 1) }, per)
  else if opcode = 0xEA then do
    let (addr, cpu, per) ← fetch_word cpu per
    let per ← per.write addr cpu.registers.a
    some (.ok 16, cpu, per)
  else if opcode = 0xFA then do
    let (addr, cpu, per) ← fetch_word cpu per
    let (v, per) ← per.read addr
    some (.ok 16, { cpu with registers.a := v }, per)
  else if opcode = 0xE0 then do
    let (offset, cpu, per) ← fetch_byte cpu per
    let per ← per.write (0xFF00 + offset) cpu.registers.a
    some (.ok 12, cpu, per)
  else if opcode = 0xF0 then do
    let (offset, cpu, per) ← fetch_byte cpu per
    let (v, per) ← per.read (0xFF00 + offset)
    some (.ok 12, { cpu with registers.a := v }, per)
  else if opcode = 0xE2 then do
    let per ← per.write (0xFF00 + cpu.registers.c) cpu.registers.a
    some (.ok 8, cpu, per)
  else if opcode = 0xF2 then do
    let (v, per) ← per.read (0xFF00 + cpu.registers.c)
    some (.ok 8, { cpu with registers.a := v }, per)
  else if opcode = 0x08 then do
    let (addr, cpu, per) ← fetch_word cpu per
    let per ← per.write addr (wrap8 cpu.registers.sp)
    let per ← per.write (wrap16 (addr + 1)) (wrap8 (cpu.registers.sp >>> 8))
    some (.ok 20, cpu, per)
  else if opcode = 0xF9 then
    some (.ok 8, { cpu with registers.sp := cpu.registers.get_hl }, per)
  else if opcode = 0xF8 then do
    let (b, cpu, per) ← fetch_byte cpu per
    let offset := sign_extend8 b
    let sp := cpu.registers.sp
    let result := wrap16 (sp + offset)
    let f := 0
    let f := if (sp &&& 0x0F) + (offset &&& 0x0F) > 0x0F then f ||| 0x20 else f
    let f := if (sp &&& 0xFF) + (offset &&& 0xFF) > 0xFF then f ||| 0x10 else f
    let cpu := { cpu with registers.f := f }
    some (.ok 12, { cpu with registers := cpu.registers.set_hl result }, per)
  else if opcode = 0xC5 then do
    let (cpu, per) ← push_word cpu per cpu.registers.get_bc
    some (.ok 16, cpu, per)
  else if opcode = 0xD5 then do
    let (cpu, per) ← push_word cpu per cpu.registers.get_de
    some (.ok 16, cpu, per)
  else if opcode = 0xE5 then do
    let (cpu, per) ← push_word cpu per cpu.registers.get_hl
    some (.ok 16, cpu, per)
  else if opcode = 0xF5 then do
    let (cpu, per) ← push_word cpu per cpu.registers.get_af
    some (.ok 16, cpu, per)
  else if opcode = 0xC1 then do
    let (v, cpu, per) ← pop_word cpu per
    some (.ok 12, { cpu with registers := cpu.registers.set_bc v }, per)
  else if opcode = 0xD1 then do
    let (v, cpu, per) ← pop_word cpu per
    some (.ok 12, { cpu with registers := cpu.registers.set_de v }, per)
  else if opcode = 0xE1 then do
    let (v, cpu, per) ← pop_word cpu per
    some (.ok 12, { cpu with registers := cpu.registers.set_hl v }, per)
  else if opcode = 0xF1 then do
    let (v, cpu, per) ← pop_word cpu per
    some (.ok 12, { cpu with registers := cpu.registers.set_af v }, per)
  else if 0x80 ≤ opcode ∧ opcode ≤ 0x87 then do
    let src := opcode &&& 0x07
    let (value, per) ← cpu.get_r8 src per
    some (.ok (if src = 6 then 8 else 4), cpu.alu_add value false, per)
  else if opcode = 0xC6 then do
    let (v, cpu, per) ← fetch_byte cpu per
    some (.ok 8, cpu.alu_add v false, per)
  else if 0x88 ≤ opcode ∧ opcode ≤ 0x8F then do
    let src := opcode &&& 0x07
    let (value, per) ← cpu.get_r8 src per
    some (.ok (if src = 6 then 8 else 4), cpu.alu_add value true, per)
  else if opcode = 0xCE then do
    let (v, cpu, per) ← fetch_byte cpu per
    some (.ok 8, cpu.alu_add v true, per)
  else if 0x90 ≤ opcode ∧ opcode ≤ 0x97 then do
    let src := opcode &&& 0x07
    let (value, per) ← cpu.get_r8 src per
    some (.ok (if src = 6 then 8 else 4), cpu.alu_sub value false, per)
  else if opcode = 0xD6 then do
    let (v, cpu, per) ← fetch_byte cpu per
    some (.ok 8, cpu.alu_sub v false, per)
  else if 0x98 ≤ opcode ∧ opcode ≤ 0x9F then do
    let src := opcode &&& 0x07
    let (value, per) ← cpu.get_r8 src per
    some (.ok (if src = 6 then 8 else 4), cpu.alu_sub value true, per)
  else if opcode = 0xDE then do
    let (v, cpu, per) ← fetch_byte cpu per
    some (.ok 8, cpu.alu_sub v true, per)
  else if 0xA0 ≤ opcode ∧ opcode ≤ 0xA7 then do
    let src := opcode &&& 0x07
    let (value, per) ← cpu.get_r8 src per
    some (.ok (if src = 6 then 8 else 4), cpu.alu_and value, per)
  else if opcode = 0xE6 then do
    let (v, cpu, per) ← fetch_byte cpu per
    some (.ok 8, cpu.alu_and v, per)
  else if 0xA8 ≤ opcode ∧ opcode ≤ 0xAF then do
    let src := opcode &&& 0x07
    let (value, per) ← cpu.get_r8 src per
    some (.ok (if src = 6 then 8 else 4), cpu.alu_xor value, per)
  else if opcode = 0xEE then do
    let (v, cpu, per) ← fetch_byte cpu per
    some (.ok 8, cpu.alu_xor v, per)
  else if 0xB0 ≤ opcode ∧ opcode ≤ 0xB7 then do
    let src := opcode &&& 0x07
    let (value, per) ← cpu.get_r8 src per
    some (.ok (if src = 6 then 8 else 4), cpu.alu_or value, per)
  else if opcode = 0xF6 then do
    let (v, cpu, per) ← fetch_byte cpu per
    some (.ok 8, cpu.alu_or v, per)
  else if 0xB8 ≤ opcode ∧ opcode ≤ 0xBF then do
    let src := opcode &&& 0x07
    let (value, per) ← cpu.get_r8 src per
    some (.ok (if src = 6 then 8 else 4), cpu.alu_cp value, per)
  else if opcode = 0xFE then do
    let (v, cpu, per) ← fetch_byte cpu per
    some (.ok 8, cpu.alu_cp v, per)
  else if opcode = 0x04 then
    let (r, cpu) := cpu.alu_inc cpu.registers.b
    some (.ok 4, { cpu with registers.b := r }, per)
  else if opcode = 0x0C then
    let (r, cpu) := cpu.alu_inc cpu.registers.c
    some (.ok 4, { cpu with registers.c := r }, per)
  else if opcode = 0x14 then
    let (r, cpu) := cpu.alu_inc cpu.registers.d
    some (.ok 4, { cpu with registers.d := r }, per)
  else if opcode = 0x1C then
    let (r, cpu) := cpu.alu_inc cpu.registers.e
    some (.ok 4, { cpu with registers.e := r }, per)
  else if opcode = 0x24 then
    let (r, cpu) := cpu.alu_inc cpu.registers.h
    some (.ok 4, { cpu with registers.h := r }, per)
  else if opcode = 0x2C then
    let (r, cpu) := cpu.alu_inc cpu.registers.l
    some (.ok 4, { cpu with registers.l := r }, per)
  else if opcode = 0x34 then do
    let addr := cpu.registers.get_hl
    let (v, per) ← per.read addr
    let (r, cpu) := cpu.alu_inc v
    let per ← per.write addr r
    some (.ok 12, cpu, per)
  else if opcode = 0x3C then
    let (r, cpu) := cpu.alu_inc cpu.registers.a
    some (.ok 4, { cpu with registers.a := r }, per)
  else if opcode = 0x05 then
    let (r, cpu) := cpu.alu_dec cpu.registers.b
    some (.ok 4, { cpu with registers.b := r }, per)
  else if opcode = 0x0D then
    let (r, cpu) := cpu.alu_dec cpu.registers.c
    some (.ok 4, { cpu with registers.c := r }, per)
  else if opcode = 0x15 then
    let (r, cpu) := cpu.alu_dec cpu.registers.d
    some (.ok 4, { cpu with registers.d := r }, per)
  else if opcode = 0x1D then
    let (r, cpu) := cpu.alu_dec cpu.registers.e
    some (.ok 4, { cpu with registers.e := r }, per)
  else if opcode = 0x25 then
    let (r, cpu) := cpu.alu_dec cpu.registers.h
    some (.ok 4, { cpu with registers.h := r }, per)
  else if opcode = 0x2D then
    let (r, cpu) := cpu.alu_dec cpu.registers.l
    some (.ok 4, { cpu with registers.l := r }, per)
  else if opcode = 0x35 then do
    let addr := cpu.registers.get_hl
    let (v, per) ← per.read addr
    let (r, cpu) := cpu.alu_dec v
    let per ← per.write addr r
    some (.ok 12, cpu, per)
  else if opcode = 0x3D then
    let (r, cpu) := cpu.alu_dec cpu.registers.a
    some (.ok 4, { cpu with registers.a := r }, per)
  else if opcode = 0x27 then
    some (.ok 4, cpu.alu_daa, per)
  else if opcode = 0x2F then
    let cpu := { cpu with registers.a := cpu.registers.a ^^^ 0xFF }
    some (.ok 4, { cpu with registers.f := cpu.registers.f ||| 0x60 }, per)
  else if opcode = 0x37 then
    some (.ok 4, { cpu with registers.f := (cpu.registers.f &&& 0x80) ||| 0x10 }, per)
  else if opcode = 0x3F then
    let carry := (cpu.registers.f &&& 0x10) ^^^ 0x10
    some (.ok 4, { cpu with registers.f := (cpu.registers.f &&& 0x80) ||| carry }, per)
  else if opcode = 0x09 then
    some (.ok 8, cpu.alu_add_hl cpu.registers.get_bc, per)
  else if opcode = 0x19 then
    some (.ok 8, cpu.alu_add_hl cpu.registers.get_de, per)
  else if opcode = 0x29 then
    some (.ok 8, cpu.alu_add_hl cpu.registers.get_hl, per)
  else if opcode = 0x39 then
    some (.ok 8, cpu.alu_add_hl cpu.registers.sp, per)
  else if opcode = 0x03 then
    some (.ok 8, { cpu with registers := cpu.registers.set_bc (wrap16 (cpu.registers.get_bc + 1)) }, per)
  else if opcode = 0x13 then
    some (.ok 8, { cpu with registers := cpu.registers.set_de (wrap16 (cpu.registers.get_de + 1)) }, per)
  else if opcode = 0x23 then
    some (.ok 8, { cpu with registers := cpu.registers.set_hl (wrap16 (cpu.registers.get_hl + 1)) }, per)
  else if opcode = 0x33 then
    some (.ok 8, { cpu with registers.sp := wrap16 (cpu.registers.sp + 1) }, per)
  else if opcode = 0x0B then
    some (.ok 8, { cpu with registers := cpu.registers.set_bc (wsub16 cpu.registers.get_bc 1) }, per)
  else if opcode = 0x1B then
    some (.ok 8, { cpu with registers := cpu.registers.set_de (wsub16 cpu.registers.get_de 1) }, per)
  else if opcode = 0x2B then
    some (.ok 8, { cpu with registers := cpu.registers.set_hl (wsub16 cpu.registers.get_hl 1) }, per)
  else if opcode = 0x3B then
    some (.ok 8, { cpu with registers.sp := wsub16 cpu.registers.sp 1 }, per)
  else if opcode = 0xE8 then do
    let (b, cpu, per) ← fetch_byte cpu per
    let offset := sign_extend8 b
    let sp := cpu.registers.sp
    let result := wrap16 (sp + offset)
    let f := 0
    let f := if (sp &&& 0x0F) + (offset &&& 0x0F) > 0x0F then f ||| 0x20 else f
    let f := if (sp &&& 0xFF) + (offset &&& 0xFF) > 0xFF then f ||| 0x10 else f
    let cpu := { cpu with registers.f := f }
    some (.ok 16, { cpu with registers.sp := result }, per)
  else if opcode = 0x07 then
    let carry := cpu.registers.a >>> 7
    let cpu := { cpu with registers.a := wrap8 ((cpu.registers.a <<< 1) ||| carry) }
    some (.ok 4, { cpu with registers.f := carry <<< 4 }, per)
  else if opcode = 0x0F then
    let carry := cpu.registers.a &&& 1
    let cpu := { cpu with registers.a := (cpu.registers.a >>> 1) ||| (carry <<< 7) }
    some (.ok 4, { cpu with registers.f := carry <<< 4 }, per)
  else if opcode = 0x17 then
    let old_carry := (cpu.registers.f >>> 4) &&& 1
    let new_carry := cpu.registers.a >>> 7
    let cpu := { cpu with registers.a := wrap8 ((cpu.registers.a <<< 1) ||| old_carry) }
    some (.ok 4, { cpu with registers.f := new_carry <<< 4 }, per)
  else if opcode = 0x1F then
    let old_carry := (cpu.registers.f >>> 4) &&& 1
    let new_carry := cpu.registers.a &&& 1
    let cpu := { cpu with registers.a := (cpu.registers.a >>> 1) ||| (old_carry <<< 7) }
    some (.ok 4, { cpu with registers.f := new_carry <<< 4 }, per)
  else if opcode = 0xC3 then do
    let (addr, cpu, per) ← fetch_word cpu per
    some (.ok 16, { cpu with registers.pc := addr }, per)
  else if opcode = 0xE9 then
    some (.ok 4, { cpu with registers.pc := cpu.registers.get_hl }, per)
  else if opcode = 0xC2 then do
    let (addr, cpu, per) ← fetch_word cpu per
    if ¬cpu.registers.get_flag_z then
      some (.ok 16, { cpu with registers.pc := addr }, per)
    else some (.ok 12, cpu, per)
  else if opcode = 0xCA then do
    let (addr, cpu, per) ← fetch_word cpu per
    if cpu.registers.get_flag_z then
      some (.ok 16, { cpu with registers.pc := addr }, per)
    else some (.ok 12, cpu, per)
  else if opcode = 0xD2 then do
    let (addr, cpu, per) ← fetch_word cpu per
    if ¬cpu.registers.get_flag_c then
      some (.ok 16, { cpu with registers.pc := addr }, per)
    else some (.ok 12, cpu, per)
  else if opcode = 0xDA then do
    let (addr, cpu, per) ← fetch_word cpu per
    if cpu.registers.get_flag_c then
      some (.ok 16, { cpu with registers.pc := addr }, per)
    else some (.ok 12, cpu, per)
  else if opcode = 0x18 then do
    let (b, cpu, per) ← fetch_byte cpu per
    some (.ok 12, { cpu with registers.pc := wrap16 (cpu.registers.pc + sign_extend8 b) }, per)
  else if opcode = 0x20 then do
    let (b, cpu, per) ← fetch_byte cpu per
    if ¬cpu.registers.get_flag_z then
      some (.ok 12, { cpu with registers.pc := wrap16 (cpu.registers.pc + sign_extend8 b) }, per)
    else some (.ok 8, cpu, per)
  else if opcode = 0x28 then do
    let (b, cpu, per) ← fetch_byte cpu per
    if cpu.registers.get_flag_z then
      some (.ok 12, { cpu with registers.pc := wrap16 (cpu.registers.pc + sign_extend8 b) }, per)
    else some (.ok 8, cpu, per)
  else if opcode = 0x30 then do
    let (b, cpu, per) ← fetch_byte cpu per
    if ¬cpu.registers.get_flag_c then
      some (.ok 12, { cpu with registers.pc := wrap16 (cpu.registers.pc + sign_extend8 b) }, per)
    else some (.ok 8, cpu, per)
  else if opcode = 0x38 then do
    let (b, cpu, per) ← fetch_byte cpu per
    if cpu.registers.get_flag_c then
      some (.ok 12, { cpu with registers.pc := wrap16 (cpu.registers.pc + sign_extend8 b) }, per)
    else some (.ok 8, cpu, per)
  else if opcode = 0xCD then do
    let (addr, cpu, per) ← fetch_word cpu per
    let (cpu, per) ← push_word cpu per cpu.registers.pc
    some (.ok 24, { cpu with registers.pc := addr }, per)
  else if opcode = 0xC4 then do
    let (addr, cpu, per) ← fetch_word cpu per
    if ¬cpu.registers.get_flag_z then do
      let (cpu, per) ← push_word cpu per cpu.registers.pc
      some (.ok 24, { cpu with registers.pc := addr }, per)
    else some (.ok 12, cpu, per)
  else if opcode = 0xCC then do
    let (addr, cpu, per) ← fetch_word cpu per
    if cpu.registers.get_flag_z then do
      let (cpu, per) ← push_word cpu per cpu.registers.pc
      some (.ok 24, { cpu with registers.pc := addr }, per)
    else some (.ok 12, cpu, per)
  else if opcode = 0xD4 then do
    let (addr, cpu, per) ← fetch_word cpu per
    if ¬cpu.registers.get_flag_c then do
      let (cpu, per) ← push_word cpu per cpu.registers.pc
      some (.ok 24, { cpu with registers.pc := addr }, per)
    else some (.ok 12, cpu, per)
  else if opcode = 0xDC then do
    let (addr, cpu, per) ← fetch_word cpu per
    if cpu.registers.get_flag_c then do
      let (cpu, per) ← push_word cpu per cpu.registers.pc
      some (.ok 24, { cpu with registers.pc := addr }, per)
    else some (.ok 12, cpu, per)
  else if opcode = 0xC9 then do
    let (v, cpu, per) ← pop_word cpu per
    some (.ok 16, { cpu with registers.pc := v }, per)
  else if opcode = 0xC0 then do
    if ¬cpu.registers.get_flag_z then do
      let (v, cpu, per) ← pop_word cpu per
      some (.ok 20, { cpu with registers.pc := v }, per)
    else some (.ok 8, cpu, per)
  else if opcode = 0xC8 then do
    if cpu.registers.get_flag_z then do
      let (v, cpu, per) ← pop_word cpu per
      some (.ok 20, { cpu with registers.pc := v }, per)
    else some (.ok 8, cpu, per)
  else if opcode = 0xD0 then do
    if ¬cpu.registers.get_flag_c then do
      let (v, cpu, per) ← pop_word cpu per
      some (.ok 20, { cpu with registers.pc := v }, per)
    else some (.ok 8, cpu, per)
  else if opcode = 0xD8 then do
    if cpu.registers.get_flag_c then do
      let (v, cpu, per) ← pop_word cpu per
      some (.ok 20, { cpu with registers.pc := v }, per)
    else some (.ok 8, cpu, per)
  else if opcode = 0xD9 then do
    let (v, cpu, per) ← pop_word cpu per
    let cpu := { cpu with registers.pc := v }
    some (.ok 16, { cpu with ime := true }, per)
  else if opcode = 0xC7 then do
    let (cpu, per) ← push_word cpu per cpu.registers.pc
    some (.ok 16, { cpu with registers.pc := 0x00 }, per)
  else if opcode = 0xCF then do
    let (cpu, per) ← push_word cpu per cpu.registers.pc
    some (.ok 16, { cpu with registers.pc := 0x08 }, per)
  else if opcode = 0xD7 then do
    let (cpu, per) ← push_word cpu per cpu.registers.pc
    some (.ok 16, { cpu with registers.pc := 0x10 }, per)
  else if opcode = 0xDF then do
    let (cpu, per) ← push_word cpu per cpu.registers.pc
    some (.ok 16, { cpu with registers.pc := 0x18 }, per)
  else if opcode = 0xE7 then do
    let (cpu, per) ← push_word cpu per cpu.registers.pc
    some (.ok 16, { cpu with registers.pc := 0x20 }, per)
  else if opcode = 0xEF then do
    let (cpu, per) ← push_word cpu per cpu.registers.pc
    some (.ok 16, { cpu with registers.pc := 0x28 }, per)
  else if opcode = 0xF7 then do
    let (cpu, per) ← push_word cpu per cpu.registers.pc
    some (.ok 16, { cpu with registers.pc := 0x30 }, per)
  else if opcode = 0xFF then do
    let (cpu, per) ← push_word cpu per cpu.registers.pc
    some (.ok 16, { cpu with registers.pc := 0x38 }, per)
  else if opcode = 0xF3 then
    some (.ok 4, { cpu with ime := false, ime_pending := false }, per)
  else if opcode = 0xFB then
    some (.ok 4, { cpu with ime_pending := true }, per)
  else if opcode = 0xCB then do
    let (cb_opcode, cpu, per) ← fetch_byte cpu per
    execute_cb cpu per cb_opcode
  else
    some (.error "unimplemented opcode", cpu, per)

/-- `Cpu::handle_interrupts`: wake from HALT on any pending interrupt;
when IME is set, dispatch the highest-priority pending interrupt
(clear its IF bit, clear IME, push PC, jump to the vector, 20 cycles). -/
def handle_interrupts (cpu : Cpu) (per : Peripherals) :
    Option (Nat × Cpu × Peripherals) :=
  let if_reg := per.interrupt_flag
  let ie_reg := per.interrupt_enable
  let cpu :=
    if cpu.halted ∧ has_pending_interrupt if_reg ie_reg then { cpu with halted := false }
    else cpu
  if ¬cpu.ime then some (0, cpu, per)
  else
    match get_pending_interrupt if_reg ie_reg with
    | some interrupt => do
        let cpu := { cpu with ime := false, ime_pending := false }
        let per := { per with interrupt_flag := per.interrupt_flag &&& (255 ^^^ interrupt.mask) }
        let (cpu, per) ← push_word cpu per cpu.registers.pc
        some (20, { cpu with registers.pc := interrupt.handler_address }, per)
    | none => some (0, cpu, per)

/-- `Cpu::step`: interrupt dispatch, HALT idling, deferred EI, then fetch
and execute one instruction. -/
def step (cpu : Cpu) (per : Peripherals) :
    Option (Except String Nat × Cpu × Peripherals) := do
  let (interrupt_cycles, cpu, per) ← handle_interrupts cpu per
  if interrupt_cycles > 0 then some (.ok interrupt_cycles, cpu, per)
  else if cpu.halted then some (.ok 4, cpu, per)
  else
    let cpu :=
      if cpu.ime_pending then { cpu with ime := true, ime_pending := false } else cpu
    do
      let (opcode, cpu, per) ← fetch_byte cpu per
      let (result, cpu, per) ← execute_instruction cpu per opcode
      match result with
      | .ok cycles =>
          some (.ok cycles, { cpu with instruction_count := cpu.instruction_count + 1 }, per)
      | .error e => some (.error e, cpu, per)

end Cpu

/-! ## Concrete states used by witnesses and counterexamples -/

/-- A timer in mode 01 with TIMA about to overflow. -/
def c4TimerW : Timer :=
  { internal_counter := 0, tima := 255, tma := 0x42, tac := 5, interrupt_request := false }

/-- A joypad with both groups selected and Right pressed. -/
def c5JoypadW : Joypad :=
  { button_keys := 0x0F, direction_keys := 0x0E, select := 0x00, interrupt_request := false }

/-- A fresh MBC1 cartridge (64 KiB of zero-filled ROM, 4 banks). -/
def c6Mbc1W : Cartridge :=
  { rom := fun _ => 0, romLen := 0x10000, ram := fun _ => 0, ramLen := 0,
    header := { title := "TEST", cartridge_type := .Mbc1, rom_banks := 4, ram_size := 0 },
    ram_enabled := false, rom_bank := 1, ram_bank := 0, banking_mode := .Rom,
    rtc := RtcRegisters.new, rtc_latched := RtcRegisters.new,
    rtc_latch_pending := false, rtc_mapped := false, rtc_cycle_counter := 0 }

/-- A fresh MBC5 cartridge. -/
def c6Mbc5W : Cartridge :=
  { c6Mbc1W with header := { title := "TEST", cartridge_type := .Mbc5,
                             rom_banks := 4, ram_size := 0 } }

/-- A fresh MBC3 cartridge with timer, with the RAM/RTC gate open. -/
def c7Mbc3W : Cartridge :=
  { c6Mbc1W with header := { title := "TEST", cartridge_type := .Mbc3TimerBattery,
                             rom_banks := 2, ram_size := 0 },
                 ram_enabled := true }

/-- An APU with master power on. -/
def c8ApuW : Apu := { Apu.new with power := true }

/-- A freshly created bus (dummy boot ROM, DMA inactive). -/
def c10PerW : Peripherals := Peripherals.new BootRom.new_dummy

/-- CPU at an instruction boundary with IME set, PC = 0xC000,
SP = 0xDFF0 (the C2 scenario). -/
def c2CpuW : Cpu :=
  { Cpu.new with ime := true,
                 registers := { Registers.new with pc := 0xC000, sp := 0xDFF0 } }

/-- Bus with the VBlank interrupt both requested and enabled (the C2
scenario). -/
def c2PerW : Peripherals :=
  { Peripherals.new BootRom.new_dummy with interrupt_flag := 0x01, interrupt_enable := 0x01 }

/-- CPU/bus pair after the dispatch push of the C2 scenario. -/
def c2Pushed : Cpu × Peripherals :=
  (Cpu.push_word { c2CpuW with ime := false, ime_pending := false, halted := false }
      { c2PerW with
          interrupt_flag := c2PerW.interrupt_flag &&& (255 ^^^ Interrupt.VBlank.mask) }
      c2CpuW.registers.pc).getD (c2CpuW, c2PerW)

/-- Bus whose work RAM holds opcode 0xC4 (CALL NZ,a16) at 0xC000 (the C1
counterexample program). -/
def c1Per : Peripherals :=
  { Peripherals.new BootRom.new_dummy with
      wram := { data := fun i => if i = 0 then 0xC4 else 0 } }

/-- CPU with the Z flag clear (condition NZ holds), PC = 0xC000,
SP = 0xDFF0. -/
def c1CpuTaken : Cpu :=
  { Cpu.new with registers := { Registers.new with pc := 0xC000, sp := 0xDFF0, f := 0x00 } }

/-- Same CPU but with the Z flag set (condition NZ fails). -/
def c1CpuNot : Cpu :=
  { c1CpuTaken with registers := { c1CpuTaken.registers with f := 0x80 } }

/-- Result of the immediate-word fetch of the taken CALL. -/
def c1FetchedW : Nat × Cpu × Peripherals :=
  (Cpu.fetch_word c1CpuTaken c1Per).getD (0, c1CpuTaken, c1Per)

/-- Result of the immediate-word fetch of the not-taken CALL. -/
def c1FetchedN : Nat × Cpu × Peripherals :=
  (Cpu.fetch_word c1CpuNot c1Per).getD (0, c1CpuNot, c1Per)

/-- Result of the return-address push of the taken CALL. -/
def c1PushedW : Cpu × Peripherals :=
  (Cpu.push_word c1FetchedW.2.1 c1FetchedW.2.2
    c1FetchedW.2.1.registers.pc).getD (c1CpuTaken, c1Per)

/-- The PPU after `n` dots of `Ppu::step` from power-on reset. -/
def ppuAfter (n : Nat) : Ppu := (fun p => (Ppu.step p).1)^[n] Ppu.new

/-! ## Theorems -/

/-! ### C5 — joypad read with both groups selected -/

/-- C5: the claim says that with both group-select bits 0 the low nibble
of `Joypad::read` is the AND of the directional and action nibbles.  The
code instead lets the second selected group overwrite the first: with
Right pressed (directional nibble 0x0E) and no action key pressed
(action nibble 0x0F), `read` returns 0xCF — low nibble 0x0F, not the AND
0x0E that the sibling `get_current_input` computes for the same state.
(The both-bits-1 half of the claim does hold: the last branch forces the
low nibble to 0xF.) -/
theorem C5_joypad_read_drops_direction_nibble :
    Joypad.read c5JoypadW = 0xCF ∧
    Joypad.get_current_input c5JoypadW = 0x0E ∧
    (0xCF : Nat) &&& 0x0F ≠ (0x0E &&& 0x0F : Nat) ∧
    (∀ j : Joypad, j.select &&& 0x30 = 0x30 → j.read &&& 0x0F = 0xF) := by
  refine ⟨by decide, by decide, by decide, ?_⟩
  intro j h
  have h1 : j.select &&& 0x10 = 0x10 := by
    have e := congrArg (· &&& 0x10) h
    simpa [Nat.and_assoc] using e
  have h2 : j.select &&& 0x20 = 0x20 := by
    have e := congrArg (· &&& 0x20) h
    simpa [Nat.and_assoc] using e
  simp only [Joypad.read, h1, h2, h]
  norm_num
  apply Nat.eq_of_testBit_eq
  intro i
  simp only [Nat.testBit_and, Nat.testBit_or]
  cases h15 : (15 : Nat).testBit i <;> simp [h15]

/-! ### C4 — timer -/

/-- In mode 01 the selected bit is bit 3; a falling edge of it on a
counter increment happens exactly when the old counter is 15 mod 16. -/
theorem timer_edge_iff (c : Nat) (_hc : c < 65536) :
    ((c >>> 3) % 2 = 1 ∧ ((wrap16 (c + 1)) >>> 3) % 2 = 0) ↔ c % 16 = 15 := by
  simp only [Nat.shiftRight_eq_div_pow, wrap16]
  omega

/-- A tick with the timer disabled only advances the internal counter. -/
theorem timer_tick_disabled (t : Timer) (h : t.tac &&& 0x04 = 0) :
    t.tick = { t with internal_counter := wrap16 (t.internal_counter + 1) } := by
  simp [Timer.tick, Timer.is_enabled, h]

/-- A mode-01 tick away from the falling edge only advances the counter. -/
theorem timer_tick_noedge (t : Timer) (h5 : t.tac = 5)
    (hc : t.internal_counter < 65536) (hne : t.internal_counter % 16 ≠ 15) :
    t.tick = { t with internal_counter := wrap16 (t.internal_counter + 1) } := by
  have hcond : ¬((t.internal_counter >>> 3) % 2 = 1 ∧
      ((wrap16 (t.internal_counter + 1)) >>> 3) % 2 = 0) := by
    rw [timer_edge_iff _ hc]; exact hne
  simp [Timer.tick, Timer.is_enabled, Timer.get_clock_bit, h5]
  intro h1 h2
  exact absurd ⟨h1, h2⟩ hcond

/-- A mode-01 tick on the falling edge increments TIMA (reloading from
TMA and raising the interrupt request on overflow). -/
theorem timer_tick_edge (t : Timer) (h5 : t.tac = 5)
    (hc : t.internal_counter < 65536) (he : t.internal_counter % 16 = 15) :
    t.tick = if t.tima = 255 then
      { t with internal_counter := wrap16 (t.internal_counter + 1),
               tima := t.tma, interrupt_request := true }
    else
      { t with internal_counter := wrap16 (t.internal_counter + 1),
               tima := t.tima + 1 } := by
  have hcond := (timer_edge_iff t.internal_counter hc).mpr he
  simp [Timer.tick, Timer.is_enabled, Timer.get_clock_bit, h5, Nat.and_one_is_mod,
        hcond.1, hcond.2]

/-- A run of mode-01 ticks that never crosses a falling edge leaves
everything but the internal counter unchanged. -/
theorem timer_run_noedge : ∀ (k : Nat) (t : Timer), t.tac = 5 →
    t.internal_counter < 65536 →
    (∀ i, i < k → (t.internal_counter + i) % 16 ≠ 15) →
    Timer.tick^[k] t = { t with internal_counter := wrap16 (t.internal_counter + k) } := by
  intro k
  induction k with
  | zero =>
      intro t _ hc _
      simp [wrap16, Nat.mod_eq_of_lt hc]
  | succ k ih =>
      intro t h5 hc hno
      rw [Function.iterate_succ_apply]
      rw [timer_tick_noedge t h5 hc (by have := hno 0 (by omega); simpa using this)]
      have hc' : ({ t with internal_counter := wrap16 (t.internal_counter + 1) } : Timer).internal_counter < 65536 := by
        show wrap16 _ < 65536
        simp only [wrap16]
        omega
      have hno' : ∀ i, i < k →
          (({ t with internal_counter := wrap16 (t.internal_counter + 1) } : Timer).internal_counter + i) % 16 ≠ 15 := by
        intro i hi
        show (wrap16 (t.internal_counter + 1) + i) % 16 ≠ 15
        have := hno (i + 1) (by omega)
        simp only [wrap16]
        omega
      rw [ih { t with internal_counter := wrap16 (t.internal_counter + 1) } h5 hc' hno']
      show ({ t with internal_counter := wrap16 (wrap16 (t.internal_counter + 1) + k) } : Timer) = _
      have : wrap16 (wrap16 (t.internal_counter + 1) + k) = wrap16 (t.internal_counter + (k + 1)) := by
        simp only [wrap16]
        omega
      rw [this]

/-- C4: with TAC = 0x05 (enabled, mode 01) every window of 16 ticks
performs exactly one TIMA increment — TIMA goes from `v` to `v + 1`, or
to TMA on overflow.  With the TAC enable bit clear, TIMA never changes.
A single overflowing increment reloads TMA and raises the timer
interrupt request. -/
theorem C4_timer_tima :
    (∀ t : Timer, t.tac = 0x05 → t.internal_counter < 65536 →
      (Timer.tick^[16] t).tima = (if t.tima = 255 then t.tma else t.tima + 1) ∧
      (t.tima = 255 → (Timer.tick^[16] t).interrupt_request = true)) ∧
    (∀ (t : Timer) (n : Nat), t.tac &&& 0x04 = 0 →
      (Timer.tick^[n] t).tima = t.tima) ∧
    (∀ t : Timer, t.tac = 0x05 → t.internal_counter < 65536 →
      t.internal_counter % 16 = 15 → t.tima = 255 →
      (t.tick).tima = t.tma ∧ (t.tick).interrupt_request = true) := by
  refine ⟨?_, ?_, ?_⟩
  · intro t h5 hc
    set c := t.internal_counter with hcdef
    set r := 15 - c % 16 with hrdef
    have hsplit : (16 : Nat) = (15 - r) + (1 + r) := by omega
    rw [hsplit, Function.iterate_add_apply, Function.iterate_add_apply,
        Function.iterate_one]
    rw [timer_run_noedge r t h5 hc (fun i hi => by omega)]
    set t1 : Timer := { t with internal_counter := wrap16 (c + r) } with ht1
    have hc1 : t1.internal_counter < 65536 := by simp [ht1, wrap16]; omega
    have he1 : t1.internal_counter % 16 = 15 := by simp [ht1, wrap16]; omega
    rw [timer_tick_edge t1 (by simp [ht1, h5]) hc1 he1]
    by_cases hov : t.tima = 255
    · have ht1t : t1.tima = t.tima := rfl
      rw [if_pos (by simp [ht1, hov])]
      set t2 : Timer := { t1 with internal_counter := wrap16 (t1.internal_counter + 1),
                                  tima := t1.tma, interrupt_request := true } with ht2
      rw [timer_run_noedge (15 - r) t2 (by simp [ht2, ht1, h5])
        (by simp [ht2, wrap16]; omega)
        (fun i hi => by
          simp only [ht2, ht1, wrap16]
          omega)]
      simp [ht2, ht1, hov]
    · rw [if_neg (by simp [ht1, hov])]
      set t2 : Timer := { t1 with internal_counter := wrap16 (t1.internal_counter + 1),
                                  tima := t1.tima + 1 } with ht2
      rw [timer_run_noedge (15 - r) t2 (by simp [ht2, ht1, h5])
        (by simp [ht2, wrap16]; omega)
        (fun i hi => by
          simp only [ht2, ht1, wrap16]
          omega)]
      simp [ht2, ht1, hov]
  · intro t n h
    induction n generalizing t with
    | zero => simp
    | succ n ih =>
        rw [Function.iterate_succ_apply, timer_tick_disabled t h]
        exact ih _ h
  · intro t h5 hc he hov
    rw [timer_tick_edge t h5 hc he, if_pos hov]
    exact ⟨rfl, rfl⟩

/-- Concrete instantiation of the C4 theorem: a timer in mode 01 with
TIMA = 255 and TMA = 0x42, ticked 16 times from counter 0. -/
theorem C4_timer_tima_witness :
    (c4TimerW.tac = 0x05 ∧ c4TimerW.internal_counter < 65536) ∧
    (Timer.tick^[16] c4TimerW).tima =
      (if c4TimerW.tima = 255 then c4TimerW.tma else c4TimerW.tima + 1) :=
  ⟨⟨by decide, by decide⟩, (C4_timer_tima.1 c4TimerW (by decide) (by decide)).1⟩

/-! ### C6 — MBC1 bank-zero redirect versus MBC5 -/

/-- C6: writing 0x00 to the MBC1 ROM-bank-low window 0x2000–0x3FFF
stores bank 1 (and the banked slot then reads bank 1's bytes), while on
MBC5 a write of 0x00 to 0x2000–0x2FFF keeps only the ninth bank bit —
bank 0 when that bit is clear: MBC5 has no bank-zero redirect. -/
theorem C6_mbc1_redirect_mbc5_none :
    (∀ (c : Cartridge) (addr : Nat),
       c.header.cartridge_type.mbc_kind = MbcKind.Mbc1 →
       0x2000 ≤ addr → addr ≤ 0x3FFF →
       (c.write_rom addr 0x00).rom_bank = 1 ∧
       (c.banking_mode = Mbc1Mode.Rom → c.ram_bank = 0 → 2 ≤ c.header.rom_banks →
         ∀ o, o ≤ 0x3FFF →
           (c.write_rom addr 0x00).read_rom (0x4000 + o) =
             some (getD c.rom c.romLen (0x4000 + o)))) ∧
    (∀ (c : Cartridge) (addr : Nat),
       c.header.cartridge_type.mbc_kind = MbcKind.Mbc5 →
       0x2000 ≤ addr → addr ≤ 0x2FFF →
       (c.write_rom addr 0x00).rom_bank = c.rom_bank &&& 0x100 ∧
       (c.rom_bank < 256 → (c.write_rom addr 0x00).rom_bank = 0)) := by
  constructor
  · intro c addr hk h1 h2
    have hw : c.write_rom addr 0x00 = { c with rom_bank := 1 } := by
      simp only [Cartridge.write_rom, hk]
      unfold Cartridge.write_rom_mbc1
      rw [if_neg (by omega), if_pos (by omega)]
      norm_num
    refine ⟨by rw [hw], ?_⟩
    intro hbm hrb hrbk o ho
    rw [hw]
    simp only [Cartridge.read_rom, hk]
    unfold Cartridge.read_rom_mbc1
    rw [if_neg (by omega), if_pos (by omega)]
    unfold Cartridge.effective_rom_bank_mbc1
    simp only [hrb, rmod]
    rw [if_neg (by omega)]
    have h1rb : 1 % c.header.rom_banks = 1 := Nat.mod_eq_of_lt (by omega)
    simp [h1rb]
  · intro c addr hk h1 h2
    have hw : c.write_rom addr 0x00 = { c with rom_bank := c.rom_bank &&& 0x100 } := by
      simp only [Cartridge.write_rom, hk]
      unfold Cartridge.write_rom_mbc5
      rw [if_neg (by omega), if_pos (by omega)]
      simp [wrap8]
    refine ⟨by rw [hw], ?_⟩
    intro hlt
    rw [hw]
    show c.rom_bank &&& 0x100 = 0
    have h2p := Nat.and_two_pow c.rom_bank 8
    norm_num [Nat.testBit, Nat.shiftRight_eq_div_pow] at h2p
    rw [h2p, Nat.div_eq_of_lt hlt]
    simp

/-- Concrete instantiation of C6: fresh MBC1 and MBC5 cartridges, write
0x00 to 0x2000. -/
theorem C6_mbc1_redirect_mbc5_none_witness :
    (c6Mbc1W.header.cartridge_type.mbc_kind = MbcKind.Mbc1 ∧
     (0x2000 : Nat) ≤ 0x2000 ∧ (0x2000 : Nat) ≤ 0x3FFF ∧
     (c6Mbc1W.write_rom 0x2000 0x00).rom_bank = 1) ∧
    (c6Mbc5W.header.cartridge_type.mbc_kind = MbcKind.Mbc5 ∧
     c6Mbc5W.rom_bank < 256 ∧
     (c6Mbc5W.write_rom 0x2000 0x00).rom_bank = 0) :=
  ⟨⟨by decide, by decide, by decide,
     (C6_mbc1_redirect_mbc5_none.1 c6Mbc1W 0x2000 (by decide) (by decide) (by decide)).1⟩,
   ⟨by decide, by decide,
     (C6_mbc1_redirect_mbc5_none.2 c6Mbc5W 0x2000 (by decide) (by decide) (by decide)).2
       (by decide)⟩⟩

/-! ### C7 — MBC3 RTC write, latch, read round trip -/

/-- C7: on an MBC3 cartridge with the RAM/RTC gate enabled, writing 30
to the seconds register (selector 0x08) and 45 to the minutes register
(selector 0x09), then latching with the 0x00/0x01 sequence, makes the
subsequent RAM-window reads under selectors 0x08 and 0x09 return 30 and
45 — the latched copy is the one read. -/
theorem C7_mbc3_rtc_latch_roundtrip (c : Cartridge)
    (hk : c.header.cartridge_type.mbc_kind = MbcKind.Mbc3)
    (hen : c.ram_enabled = true) :
    (((((((c.write_rom 0x4000 0x08).write_ram 0xA000 30).write_rom 0x4000 0x09).write_ram
        0xA000 45).write_rom 0x6000 0x00).write_rom 0x6000 0x01).write_rom 0x4000
        0x08).read_ram 0xA000 = 30 ∧
    ((((((((c.write_rom 0x4000 0x08).write_ram 0xA000 30).write_rom 0x4000 0x09).write_ram
        0xA000 45).write_rom 0x6000 0x00).write_rom 0x6000 0x01).write_rom 0x4000
        0x08).write_rom 0x4000 0x09).read_ram 0xA000 = 45 := by
  simp [Cartridge.write_rom, Cartridge.write_ram, Cartridge.read_ram, hk, hen,
        Cartridge.write_rom_mbc3, Cartridge.write_ram_mbc3, Cartridge.read_ram_mbc3]
  decide

/-- Concrete instantiation of C7 on a fresh gated MBC3 cartridge. -/
theorem C7_mbc3_rtc_latch_roundtrip_witness :
    (c7Mbc3W.header.cartridge_type.mbc_kind = MbcKind.Mbc3 ∧
     c7Mbc3W.ram_enabled = true) ∧
    (((((((c7Mbc3W.write_rom 0x4000 0x08).write_ram 0xA000 30).write_rom 0x4000
        0x09).write_ram 0xA000 45).write_rom 0x6000 0x00).write_rom 0x6000
        0x01).write_rom 0x4000 0x08).read_ram 0xA000 = 30 :=
  ⟨⟨by decide, by decide⟩,
   (C7_mbc3_rtc_latch_roundtrip c7Mbc3W (by decide) (by decide)).1⟩

/-! ### C8 — APU power-down behavior -/

/-- C8: while powered on, writing a value with bit 7 clear to NR52 turns
the APU off, clearing all four channel-enable bits (NR52 then reads with
a zero low nibble) and leaving the 16 wave-table bytes untouched; and
while power is off, every channel and master register other than NR52
and the wave table reads 0xFF. -/
theorem C8_apu_power_off :
    (∀ (a : Apu) (v : Nat), a.power = true → v &&& 0x80 = 0 →
       ((a.write NR52 v).read NR52) &&& 0x0F = 0 ∧
       (a.write NR52 v).channel3.wave_ram = a.channel3.wave_ram) ∧
    (∀ (a : Apu) (addr : Nat), a.power = false →
       addr ∈ ([NR10, NR11, NR12, NR13, NR14, NR21, NR22, NR23, NR24,
                NR30, NR31, NR32, NR33, NR34, NR41, NR42, NR43, NR44,
                NR50, NR51] : List Nat) →
       a.read addr = 0xFF) := by
  constructor
  · intro a v hp hv
    constructor
    · simp [Apu.write, Apu.write_nr52, Apu.power_off, Apu.read, Apu.read_nr52,
            PulseChannel.new, WaveChannel.new, NoiseChannel.new,
            NR10, NR11, NR12, NR13, NR14, NR21, NR22, NR23, NR24, NR30, NR31,
            NR32, NR33, NR34, NR41, NR42, NR43, NR44, NR50, NR51, NR52,
            WAVE_RAM_START, WAVE_RAM_END, hp, hv]
      decide
    · simp [Apu.write, Apu.write_nr52, Apu.power_off, NR52,
            WAVE_RAM_START, WAVE_RAM_END, hp, hv]
  · intro a addr hp hmem
    fin_cases hmem <;>
      simp [Apu.read, NR10, NR11, NR12, NR13, NR14, NR21, NR22, NR23, NR24,
            NR30, NR31, NR32, NR33, NR34, NR41, NR42, NR43, NR44, NR50, NR51,
            NR52, WAVE_RAM_START, WAVE_RAM_END, hp]

/-- Concrete instantiation of C8: a powered-on APU written with 0x00. -/
theorem C8_apu_power_off_witness :
    (c8ApuW.power = true ∧ (0 : Nat) &&& 0x80 = 0) ∧
    ((c8ApuW.write NR52 0).read NR52) &&& 0x0F = 0 :=
  ⟨⟨by decide, by decide⟩,
   (C8_apu_power_off.1 c8ApuW 0 (by decide) (by decide)).1⟩

/-! ### C10 — the DMA copy writes only into OAM -/

/-- `Dma::tick` never changes the latched source register. -/
theorem dma_tick_source (d : Dma) : (d.tick).2.source = d.source := by
  simp only [Dma.tick]
  repeat' split
  all_goals rfl

/-- `Peripherals.dmaCopy` touches nothing but OAM entries below 160. -/
theorem dmaCopy_fields (p p' : Peripherals) (src dst : Nat)
    (h : p.dmaCopy src dst = some p') :
    p'.wram = p.wram ∧ p'.hram = p.hram ∧ p'.ppu.vram = p.ppu.vram ∧
    p'.cartridge = p.cartridge ∧ p'.timer = p.timer ∧ p'.joypad = p.joypad ∧
    p'.serial = p.serial ∧ p'.apu = p.apu ∧ p'.ppu.registers = p.ppu.registers ∧
    p'.interrupt_flag = p.interrupt_flag ∧ p'.interrupt_enable = p.interrupt_enable ∧
    p'.dma = p.dma ∧ p'.bootrom = p.bootrom ∧
    (∀ i, 160 ≤ i → p'.ppu.oam i = p.ppu.oam i) := by
  rcases hdr : p.dma_read src with _ | value
  · simp only [Peripherals.dmaCopy, hdr] at h
    exact Option.noConfusion h
  · simp only [Peripherals.dmaCopy, hdr] at h
    by_cases hoff : dst - 0xFE00 < 160
    · rw [if_pos hoff] at h
      simp only [Option.some.injEq] at h
      subst h
      refine ⟨rfl, rfl, rfl, rfl, rfl, rfl, rfl, rfl, rfl, rfl, rfl, rfl, rfl, ?_⟩
      intro i hi
      simp only [upd]
      rw [if_neg (by omega)]
    · rw [if_neg hoff] at h
      simp only [Option.some.injEq] at h
      subst h
      exact ⟨rfl, rfl, rfl, rfl, rfl, rfl, rfl, rfl, rfl, rfl, rfl, rfl, rfl,
             fun i _ => rfl⟩

/-- C10: the DMA block of `Peripherals::tick` modifies nothing but the
DMA engine state and OAM entries below index 160; work RAM, video RAM,
high RAM, cartridge state and the I/O-register state are untouched, a
due transfer goes to 0xFE00 + byte_counter with byte_counter < 160 (the
copy proceeds in order), and a cycle with DMA inactive transfers
nothing. -/
theorem C10_dma_copy_only_oam :
    (∀ p : Peripherals, p.dma.active = false → p.dmaCycle = some p) ∧
    (∀ p p' : Peripherals, p.dmaCycle = some p' →
       p'.wram = p.wram ∧ p'.hram = p.hram ∧ p'.ppu.vram = p.ppu.vram ∧
       p'.cartridge = p.cartridge ∧ p'.timer = p.timer ∧ p'.joypad = p.joypad ∧
       p'.serial = p.serial ∧ p'.apu = p.apu ∧ p'.ppu.registers = p.ppu.registers ∧
       p'.interrupt_flag = p.interrupt_flag ∧ p'.interrupt_enable = p.interrupt_enable ∧
       p'.dma.source = p.dma.source ∧
       (∀ i, 160 ≤ i → p'.ppu.oam i = p.ppu.oam i)) ∧
    (∀ p : Peripherals, p.dma.active = true →
       ((p.dma.tick).1 = none ∨
        ∃ src, (p.dma.tick).1 = some (src, 0xFE00 + p.dma.byte_counter) ∧
               p.dma.byte_counter < 160)) := by
  refine ⟨?_, ?_, ?_⟩
  · intro p h
    simp [Peripherals.dmaCycle, Dma.tick, h]
  · intro p p' h
    unfold Peripherals.dmaCycle at h
    rcases htick : p.dma.tick with ⟨tr, dma'⟩
    rw [htick] at h
    have hs : dma'.source = p.dma.source := by
      have := dma_tick_source p.dma
      rw [htick] at this
      exact this
    rcases tr with _ | ⟨src, dst⟩
    · simp only [Option.some.injEq] at h
      subst h
      exact ⟨rfl, rfl, rfl, rfl, rfl, rfl, rfl, rfl, rfl, rfl, rfl, hs,
             fun i _ => rfl⟩
    · have hc := dmaCopy_fields _ _ _ _ h
      obtain ⟨h1, h2, h3, h4, h5, h6, h7, h8, h9, h10, h11, h12, _, h14⟩ := hc
      refine ⟨h1, h2, h3, h4, h5, h6, h7, h8, h9, h10, h11, ?_, h14⟩
      rw [h12]
      exact hs
  · intro p h
    by_cases hcond : p.dma.remaining_cycles % 4 = 0 ∧ p.dma.byte_counter < 160
    · right
      refine ⟨p.dma.source_address + p.dma.byte_counter, ?_, hcond.2⟩
      simp [Dma.tick, h, hcond]
    · left
      simp [Dma.tick, h, hcond]

/-- Concrete instantiation of C10: a fresh bus with its inactive DMA
engine transfers nothing. -/
theorem C10_dma_copy_only_oam_witness :
    c10PerW.dma.active = false ∧ c10PerW.dmaCycle = some c10PerW :=
  ⟨by decide, C10_dma_copy_only_oam.1 c10PerW (by decide)⟩


/-! ### C2 — interrupt dispatch -/

/-- The two wrapping stack-pointer decrements of a push amount to one
wrapping subtraction of two. -/
theorem wsub16_wsub16_one (s : Nat) : wsub16 (wsub16 s 1) 1 = wsub16 s 2 := by
  unfold wsub16
  omega

/-- `push_word` decrements SP by two (wrapping) and leaves every other
CPU field alone. -/
theorem push_word_cpu (cpu cpu2 : Cpu) (per per2 : Peripherals) (v : Nat)
    (h : Cpu.push_word cpu per v = some (cpu2, per2)) :
    cpu2 = { cpu with registers.sp := wsub16 cpu.registers.sp 2 } := by
  unfold Cpu.push_word at h
  split at h
  · exact Option.noConfusion h
  · split at h
    · exact Option.noConfusion h
    · simp only [Option.some.injEq, Prod.mk.injEq] at h
      obtain ⟨hc, -⟩ := h
      rw [← hc, wsub16_wsub16_one]

/-- Each 5-bit pending mask selects, through `find?` over
`all_by_priority`, the lowest-numbered pending bit. -/
theorem interrupt_priority_core : ∀ p, p < 32 →
    (p ≠ 0 → (Interrupt.all_by_priority.find? (fun j => p &&& j.mask != 0)).isSome = true) ∧
    (∀ i ∈ Interrupt.all_by_priority,
      Interrupt.all_by_priority.find? (fun j => p &&& j.mask != 0) = some i →
      p &&& i.mask ≠ 0 ∧
      ∀ j ∈ Interrupt.all_by_priority, p &&& j.mask ≠ 0 → i.index ≤ j.index) := by
  decide

/-- A 5-bit mask is below 32. -/
theorem pending_lt_32 (f e : Nat) : f &&& e &&& 0x1F < 32 :=
  Nat.lt_succ_of_le Nat.and_le_right

/-- Clearing one low bit by masking with the complement: the selected
bit reads zero afterwards. -/
theorem and_not_bit_self (f idx : Nat) (h : idx < 8) :
    (f &&& (255 ^^^ (1 <<< idx))).testBit idx = false := by
  interval_cases idx <;> simp [Nat.testBit_and] <;> (intros; decide)

/-- Clearing one low bit by masking with the complement: every other low
bit is preserved. -/
theorem and_not_bit_other (f idx k : Nat) (h : idx < 8) (hk : k < 8) (hne : k ≠ idx) :
    (f &&& (255 ^^^ (1 <<< idx))).testBit k = f.testBit k := by
  interval_cases idx <;> interval_cases k <;>
    first
    | omega
    | (simp [Nat.testBit_and] <;> (intros; decide))

/-- `handle_interrupts` in the dispatch case: IME set, a pending
interrupt chosen, and the stack push succeeding. -/
theorem handle_interrupts_dispatch (cpu : Cpu) (per : Peripherals) (i : Interrupt)
    (cpu2 : Cpu) (per2 : Peripherals)
    (hhalt : cpu.halted = false) (hime : cpu.ime = true)
    (hget : get_pending_interrupt per.interrupt_flag per.interrupt_enable = some i)
    (hpush : Cpu.push_word { cpu with ime := false, ime_pending := false, halted := false }
        { per with interrupt_flag := per.interrupt_flag &&& (255 ^^^ i.mask) }
        cpu.registers.pc = some (cpu2, per2)) :
    Cpu.handle_interrupts cpu per
      = some (20, { cpu2 with registers.pc := i.handler_address }, per2) := by
  simp [Cpu.handle_interrupts, hhalt, hime, hget, hpush, Bind.bind, Option.bind]

/-- C2: with IME set and a pending enabled interrupt at an instruction
boundary, `Cpu::step` dispatches: the chosen interrupt is the
lowest-numbered pending bit, that bit is cleared in IF (other low bits
preserved), IME is cleared, PC is pushed with SP dropping by two
(wrapping), PC is set to the interrupt's vector in
{0x40, 0x48, 0x50, 0x58, 0x60}, and the step returns 20 cycles without
executing an instruction.  Concretely, with SP = 0xDFF0, PC = 0xC000,
IME = 1 and IF = IE = 0x01, one step leaves PC = 0x0040, SP = 0xDFEE,
IME = 0, IF bit 0 clear, and returns 20 cycles. -/
theorem C2_interrupt_dispatch :
    (∀ (cpu : Cpu) (per : Peripherals) (i : Interrupt) (cpu2 : Cpu) (per2 : Peripherals),
      cpu.halted = false →
      cpu.ime = true →
      get_pending_interrupt per.interrupt_flag per.interrupt_enable = some i →
      Cpu.push_word { cpu with ime := false, ime_pending := false, halted := false }
          { per with interrupt_flag := per.interrupt_flag &&& (255 ^^^ i.mask) }
          cpu.registers.pc = some (cpu2, per2) →
      (per.interrupt_flag &&& per.interrupt_enable &&& 0x1F) &&& i.mask ≠ 0 ∧
      (∀ j : Interrupt,
          (per.interrupt_flag &&& per.interrupt_enable &&& 0x1F) &&& j.mask ≠ 0 →
          i.index ≤ j.index) ∧
      (per.interrupt_flag &&& (255 ^^^ i.mask)).testBit i.index = false ∧
      (∀ k, k < 8 → k ≠ i.index →
          (per.interrupt_flag &&& (255 ^^^ i.mask)).testBit k
            = per.interrupt_flag.testBit k) ∧
      cpu2.ime = false ∧
      cpu2.registers.sp = wsub16 cpu.registers.sp 2 ∧
      i.handler_address ∈ ([0x40, 0x48, 0x50, 0x58, 0x60] : List Nat) ∧
      Cpu.step cpu per
        = some (.ok 20, { cpu2 with registers.pc := i.handler_address }, per2)) ∧
    (Cpu.step c2CpuW c2PerW).map
        (fun r => (r.1, r.2.1.registers.pc, r.2.1.registers.sp, r.2.1.ime,
                   r.2.2.interrupt_flag &&& 0x01))
      = some (.ok 20, 0x0040, 0xDFEE, false, 0) := by
  constructor
  · intro cpu per i cpu2 per2 hhalt hime hget hpush
    have hp : per.interrupt_flag &&& per.interrupt_enable &&& 0x1F ≠ 0 := by
      intro h0
      simp [get_pending_interrupt, h0] at hget
    have hfind : Interrupt.all_by_priority.find?
        (fun j => (per.interrupt_flag &&& per.interrupt_enable &&& 0x1F) &&& j.mask != 0)
        = some i := by
      simpa [get_pending_interrupt, hp] using hget
    have hmem : i ∈ Interrupt.all_by_priority := List.mem_of_find?_eq_some hfind
    have hcore := (interrupt_priority_core _
        (pending_lt_32 per.interrupt_flag per.interrupt_enable)).2 i hmem hfind
    have hidx : i.index < 8 := by cases i <;> decide
    have hcpu2 := push_word_cpu _ _ _ _ _ hpush
    refine ⟨hcore.1, ?_, ?_, ?_, ?_, ?_, ?_, ?_⟩
    · intro j hj
      exact hcore.2 j (by cases j <;> decide) hj
    · rw [Interrupt.mask]
      exact and_not_bit_self _ _ hidx
    · intro k hk hne
      rw [Interrupt.mask]
      exact and_not_bit_other _ _ _ hidx hk hne
    · rw [hcpu2]
    · rw [hcpu2]
    · cases i <;> decide
    · have hi := handle_interrupts_dispatch cpu per i cpu2 per2 hhalt hime hget hpush
      simp [Cpu.step, hi, Bind.bind, Option.bind]
  · rfl

/-- Concrete instantiation of the C2 dispatch theorem: the scenario
machine dispatches to 0x0040 with SP falling from 0xDFF0 to 0xDFEE. -/
theorem C2_interrupt_dispatch_witness :
    Cpu.step c2CpuW c2PerW
      = some (.ok 20, { c2Pushed.1 with registers.pc := Interrupt.VBlank.handler_address },
              c2Pushed.2) ∧
    c2Pushed.1.registers.sp = wsub16 c2CpuW.registers.sp 2 := by
  have h := C2_interrupt_dispatch.1 c2CpuW c2PerW .VBlank c2Pushed.1 c2Pushed.2
      rfl rfl rfl rfl
  exact ⟨h.2.2.2.2.2.2.2, h.2.2.2.2.2.1⟩

/-! ### C1 — conditional-branch cycle counts -/

/-- A byte fetch advances PC by one (wrapping) and changes no other CPU
field. -/
theorem fetch_byte_cpu (cpu cpu1 : Cpu) (per per1 : Peripherals) (b : Nat)
    (h : Cpu.fetch_byte cpu per = some (b, cpu1, per1)) :
    cpu1 = { cpu with registers.pc := wrap16 (cpu.registers.pc + 1) } := by
  unfold Cpu.fetch_byte at h
  rcases h1 : per.read cpu.registers.pc with _ | x
  · rw [h1] at h
    exact Option.noConfusion h
  · rw [h1] at h
    obtain ⟨v, perX⟩ := x
    simp only [Bind.bind, Option.bind, Option.some.injEq, Prod.mk.injEq] at h
    obtain ⟨-, hc, -⟩ := h
    exact hc.symm

/-- A word fetch advances PC by two (wrapping) and changes no other CPU
field. -/
theorem fetch_word_cpu (cpu cpu1 : Cpu) (per per1 : Peripherals) (a : Nat)
    (h : Cpu.fetch_word cpu per = some (a, cpu1, per1)) :
    cpu1 = { cpu with registers.pc := wrap16 (wrap16 (cpu.registers.pc + 1) + 1) } := by
  unfold Cpu.fetch_word at h
  rcases h1 : Cpu.fetch_byte cpu per with _ | x
  · rw [h1] at h
    exact Option.noConfusion h
  · rw [h1] at h
    obtain ⟨lo, cpuA, perA⟩ := x
    simp only [Bind.bind, Option.bind] at h
    rcases h2 : Cpu.fetch_byte cpuA perA with _ | y
    · rw [h2] at h
      exact Option.noConfusion h
    · rw [h2] at h
      obtain ⟨hi, cpuB, perB⟩ := y
      simp only [Bind.bind, Option.bind, Option.some.injEq, Prod.mk.injEq] at h
      obtain ⟨-, hc, -⟩ := h
      have e1 := fetch_byte_cpu _ _ _ _ _ h1
      have e2 := fetch_byte_cpu _ _ _ _ _ h2
      rw [← hc, e2, e1]

/-- C1 (amended): for the conditional control-flow instructions the
machine-cycle count returned for a taken branch exceeds the not-taken
count by four for JR cc (12 against 8) and JP cc (16 against 12), but by
twelve for CALL cc (24 against 12) and RET cc (20 against 8).  Stated
over `execute_instruction`, whose cycle result `Cpu::step` returns
unchanged when no interrupt is dispatched. -/
theorem C1_branch_cycle_deltas (cpu : Cpu) (per : Peripherals) :
    (∀ b cpu1 per1, Cpu.fetch_byte cpu per = some (b, cpu1, per1) →
      ((Cpu.execute_instruction cpu per 0x20).map (fun r => r.1)
          = some (.ok (if cpu.registers.get_flag_z then 8 else 12))) ∧
      ((Cpu.execute_instruction cpu per 0x28).map (fun r => r.1)
          = some (.ok (if cpu.registers.get_flag_z then 12 else 8))) ∧
      ((Cpu.execute_instruction cpu per 0x30).map (fun r => r.1)
          = some (.ok (if cpu.registers.get_flag_c then 8 else 12))) ∧
      ((Cpu.execute_instruction cpu per 0x38).map (fun r => r.1)
          = some (.ok (if cpu.registers.get_flag_c then 12 else 8)))) ∧
    (∀ a cpu1 per1, Cpu.fetch_word cpu per = some (a, cpu1, per1) →
      ((Cpu.execute_instruction cpu per 0xC2).map (fun r => r.1)
          = some (.ok (if cpu.registers.get_flag_z then 12 else 16))) ∧
      ((Cpu.execute_instruction cpu per 0xCA).map (fun r => r.1)
          = some (.ok (if cpu.registers.get_flag_z then 16 else 12))) ∧
      ((Cpu.execute_instruction cpu per 0xD2).map (fun r => r.1)
          = some (.ok (if cpu.registers.get_flag_c then 12 else 16))) ∧
      ((Cpu.execute_instruction cpu per 0xDA).map (fun r => r.1)
          = some (.ok (if cpu.registers.get_flag_c then 16 else 12)))) ∧
    (∀ a cpu1 per1, Cpu.fetch_word cpu per = some (a, cpu1, per1) →
      (cpu.registers.get_flag_z = true →
        (Cpu.execute_instruction cpu per 0xC4).map (fun r => r.1) = some (.ok 12)) ∧
      (cpu.registers.get_flag_z = false →
        (Cpu.execute_instruction cpu per 0xCC).map (fun r => r.1) = some (.ok 12)) ∧
      (cpu.registers.get_flag_c = true →
        (Cpu.execute_instruction cpu per 0xD4).map (fun r => r.1) = some (.ok 12)) ∧
      (cpu.registers.get_flag_c = false →
        (Cpu.execute_instruction cpu per 0xDC).map (fun r => r.1) = some (.ok 12))) ∧
    (∀ a cpu1 per1, Cpu.fetch_word cpu per = some (a, cpu1, per1) →
      ∀ cpu2 per2, Cpu.push_word cpu1 per1 cpu1.registers.pc = some (cpu2, per2) →
      (cpu.registers.get_flag_z = false →
        (Cpu.execute_instruction cpu per 0xC4).map (fun r => r.1) = some (.ok 24)) ∧
      (cpu.registers.get_flag_z = true →
        (Cpu.execute_instruction cpu per 0xCC).map (fun r => r.1) = some (.ok 24)) ∧
      (cpu.registers.get_flag_c = false →
        (Cpu.execute_instruction cpu per 0xD4).map (fun r => r.1) = some (.ok 24)) ∧
      (cpu.registers.get_flag_c = true →
        (Cpu.execute_instruction cpu per 0xDC).map (fun r => r.1) = some (.ok 24))) ∧
    ((cpu.registers.get_flag_z = true →
        (Cpu.execute_instruction cpu per 0xC0).map (fun r => r.1) = some (.ok 8)) ∧
      (cpu.registers.get_flag_z = false →
        (Cpu.execute_instruction cpu per 0xC8).map (fun r => r.1) = some (.ok 8)) ∧
      (cpu.registers.get_flag_c = true →
        (Cpu.execute_instruction cpu per 0xD0).map (fun r => r.1) = some (.ok 8)) ∧
      (cpu.registers.get_flag_c = false →
        (Cpu.execute_instruction cpu per 0xD8).map (fun r => r.1) = some (.ok 8))) ∧
    (∀ v cpu1 per1, Cpu.pop_word cpu per = some (v, cpu1, per1) →
      (cpu.registers.get_flag_z = false →
        (Cpu.execute_instruction cpu per 0xC0).map (fun r => r.1) = some (.ok 20)) ∧
      (cpu.registers.get_flag_z = true →
        (Cpu.execute_instruction cpu per 0xC8).map (fun r => r.1) = some (.ok 20)) ∧
      (cpu.registers.get_flag_c = false →
        (Cpu.execute_instruction cpu per 0xD0).map (fun r => r.1) = some (.ok 20)) ∧
      (cpu.registers.get_flag_c = true →
        (Cpu.execute_instruction cpu per 0xD8).map (fun r => r.1) = some (.ok 20))) ∧
    ((12 : Nat) = 8 + 4 ∧ (16 : Nat) = 12 + 4 ∧ (24 : Nat) = 12 + 12 ∧ (20 : Nat) = 8 + 12) := by
  refine ⟨?_, ?_, ?_, ?_, ?_, ?_, by norm_num⟩
  · intro b cpu1 per1 hf
    have hzz : cpu1.registers.get_flag_z = cpu.registers.get_flag_z := by
      rw [fetch_byte_cpu _ _ _ _ _ hf]
      rfl
    have hcc : cpu1.registers.get_flag_c = cpu.registers.get_flag_c := by
      rw [fetch_byte_cpu _ _ _ _ _ hf]
      rfl
    refine ⟨?_, ?_, ?_, ?_⟩
    · show ((do
          let (b, cpu, per) ← Cpu.fetch_byte cpu per
          if ¬cpu.registers.get_flag_z then
            some (.ok 12, { cpu with registers.pc := wrap16 (cpu.registers.pc + Cpu.sign_extend8 b) }, per)
          else some (.ok 8, cpu, per) :
            Option (Except String Nat × Cpu × Peripherals)).map (fun r => r.1))
        = some (.ok (if cpu.registers.get_flag_z then 8 else 12))
      rw [hf]
      cases hzb : cpu.registers.get_flag_z <;>
        simp [Bind.bind, Option.bind, Option.map, hzz, hcc, hzb]
    · show ((do
          let (b, cpu, per) ← Cpu.fetch_byte cpu per
          if cpu.registers.get_flag_z then
            some (.ok 12, { cpu with registers.pc := wrap16 (cpu.registers.pc + Cpu.sign_extend8 b) }, per)
          else some (.ok 8, cpu, per) :
            Option (Except String Nat × Cpu × Peripherals)).map (fun r => r.1))
        = some (.ok (if cpu.registers.get_flag_z then 12 else 8))
      rw [hf]
      cases hzb : cpu.registers.get_flag_z <;>
        simp [Bind.bind, Option.bind, Option.map, hzz, hcc, hzb]
    · show ((do
          let (b, cpu, per) ← Cpu.fetch_byte cpu per
          if ¬cpu.registers.get_flag_c then
            some (.ok 12, { cpu with registers.pc := wrap16 (cpu.registers.pc + Cpu.sign_extend8 b) }, per)
          else some (.ok 8, cpu, per) :
            Option (Except String Nat × Cpu × Peripherals)).map (fun r => r.1))
        = some (.ok (if cpu.registers.get_flag_c then 8 else 12))
      rw [hf]
      cases hzb : cpu.registers.get_flag_c <;>
        simp [Bind.bind, Option.bind, Option.map, hzz, hcc, hzb]
    · show ((do
          let (b, cpu, per) ← Cpu.fetch_byte cpu per
          if cpu.registers.get_flag_c then
            some (.ok 12, { cpu with registers.pc := wrap16 (cpu.registers.pc + Cpu.sign_extend8 b) }, per)
          else some (.ok 8, cpu, per) :
            Option (Except String Nat × Cpu × Peripherals)).map (fun r => r.1))
        = some (.ok (if cpu.registers.get_flag_c then 12 else 8))
      rw [hf]
      cases hzb : cpu.registers.get_flag_c <;>
        simp [Bind.bind, Option.bind, Option.map, hzz, hcc, hzb]
  · intro a cpu1 per1 hf
    have hzz : cpu1.registers.get_flag_z = cpu.registers.get_flag_z := by
      rw [fetch_word_cpu _ _ _ _ _ hf]
      rfl
    have hcc : cpu1.registers.get_flag_c = cpu.registers.get_flag_c := by
      rw [fetch_word_cpu _ _ _ _ _ hf]
      rfl
    refine ⟨?_, ?_, ?_, ?_⟩
    · show ((do
          let (addr, cpu, per) ← Cpu.fetch_word cpu per
          if ¬cpu.registers.get_flag_z then
            some (.ok 16, { cpu with registers.pc := addr }, per)
          else some (.ok 12, cpu, per) :
            Option (Except String Nat × Cpu × Peripherals)).map (fun r => r.1))
        = some (.ok (if cpu.registers.get_flag_z then 12 else 16))
      rw [hf]
      cases hzb : cpu.registers.get_flag_z <;>
        simp [Bind.bind, Option.bind, Option.map, hzz, hcc, hzb]
    · show ((do
          let (addr, cpu, per) ← Cpu.fetch_word cpu per
          if cpu.registers.get_flag_z then
            some (.ok 16, { cpu with registers.pc := addr }, per)
          else some (.ok 12, cpu, per) :
            Option (Except String Nat × Cpu × Peripherals)).map (fun r => r.1))
        = some (.ok (if cpu.registers.get_flag_z then 16 else 12))
      rw [hf]
      cases hzb : cpu.registers.get_flag_z <;>
        simp [Bind.bind, Option.bind, Option.map, hzz, hcc, hzb]
    · show ((do
          let (addr, cpu, per) ← Cpu.fetch_word cpu per
          if ¬cpu.registers.get_flag_c then
            some (.ok 16, { cpu with registers.pc := addr }, per)
          else some (.ok 12, cpu, per) :
            Option (Except String Nat × Cpu × Peripherals)).map (fun r => r.1))
        = some (.ok (if cpu.registers.get_flag_c then 12 else 16))
      rw [hf]
      cases hzb : cpu.registers.get_flag_c <;>
        simp [Bind.bind, Option.bind, Option.map, hzz, hcc, hzb]
    · show ((do
          let (addr, cpu, per) ← Cpu.fetch_word cpu per
          if cpu.registers.get_flag_c then
            some (.ok 16, { cpu with registers.pc := addr }, per)
          else some (.ok 12, cpu, per) :
            Option (Except String Nat × Cpu × Peripherals)).map (fun r => r.1))
        = some (.ok (if cpu.registers.get_flag_c then 16 else 12))
      rw [hf]
      cases hzb : cpu.registers.get_flag_c <;>
        simp [Bind.bind, Option.bind, Option.map, hzz, hcc, hzb]
  · intro a cpu1 per1 hf
    have hzz : cpu1.registers.get_flag_z = cpu.registers.get_flag_z := by
      rw [fetch_word_cpu _ _ _ _ _ hf]
      rfl
    have hcc : cpu1.registers.get_flag_c = cpu.registers.get_flag_c := by
      rw [fetch_word_cpu _ _ _ _ _ hf]
      rfl
    refine ⟨?_, ?_, ?_, ?_⟩
    · intro hz
      show ((do
          let (addr, cpu, per) ← Cpu.fetch_word cpu per
          if ¬cpu.registers.get_flag_z then do
            let (cpu, per) ← Cpu.push_word cpu per cpu.registers.pc
            some (.ok 24, { cpu with registers.pc := addr }, per)
          else some (.ok 12, cpu, per) :
            Option (Except String Nat × Cpu × Peripherals)).map (fun r => r.1))
        = some (.ok 12)
      rw [hf]
      simp [Bind.bind, Option.bind, Option.map, hzz, hcc, hz]
    · intro hz
      show ((do
          let (addr, cpu, per) ← Cpu.fetch_word cpu per
          if cpu.registers.get_flag_z then do
            let (cpu, per) ← Cpu.push_word cpu per cpu.registers.pc
            some (.ok 24, { cpu with registers.pc := addr }, per)
          else some (.ok 12, cpu, per) :
            Option (Except String Nat × Cpu × Peripherals)).map (fun r => r.1))
        = some (.ok 12)
      rw [hf]
      simp [Bind.bind, Option.bind, Option.map, hzz, hcc, hz]
    · intro hz
      show ((do
          let (addr, cpu, per) ← Cpu.fetch_word cpu per
          if ¬cpu.registers.get_flag_c then do
            let (cpu, per) ← Cpu.push_word cpu per cpu.registers.pc
            some (.ok 24, { cpu with registers.pc := addr }, per)
          else some (.ok 12, cpu, per) :
            Option (Except String Nat × Cpu × Peripherals)).map (fun r => r.1))
        = some (.ok 12)
      rw [hf]
      simp [Bind.bind, Option.bind, Option.map, hzz, hcc, hz]
    · intro hz
      show ((do
          let (addr, cpu, per) ← Cpu.fetch_word cpu per
          if cpu.registers.get_flag_c then do
            let (cpu, per) ← Cpu.push_word cpu per cpu.registers.pc
            some (.ok 24, { cpu with registers.pc := addr }, per)
          else some (.ok 12, cpu, per) :
            Option (Except String Nat × Cpu × Peripherals)).map (fun r => r.1))
        = some (.ok 12)
      rw [hf]
      simp [Bind.bind, Option.bind, Option.map, hzz, hcc, hz]
  · intro a cpu1 per1 hf cpu2 per2 hp
    have hzz : cpu1.registers.get_flag_z = cpu.registers.get_flag_z := by
      rw [fetch_word_cpu _ _ _ _ _ hf]
      rfl
    have hcc : cpu1.registers.get_flag_c = cpu.registers.get_flag_c := by
      rw [fetch_word_cpu _ _ _ _ _ hf]
      rfl
    refine ⟨?_, ?_, ?_, ?_⟩
    · intro hz
      show ((do
          let (addr, cpu, per) ← Cpu.fetch_word cpu per
          if ¬cpu.registers.get_flag_z then do
            let (cpu, per) ← Cpu.push_word cpu per cpu.registers.pc
            some (.ok 24, { cpu with registers.pc := addr }, per)
          else some (.ok 12, cpu, per) :
            Option (Except String Nat × Cpu × Peripherals)).map (fun r => r.1))
        = some (.ok 24)
      rw [hf]
      simp [Bind.bind, Option.bind, Option.map, hzz, hcc, hz, hp]
    · intro hz
      show ((do
          let (addr, cpu, per) ← Cpu.fetch_word cpu per
          if cpu.registers.get_flag_z then do
            let (cpu, per) ← Cpu.push_word cpu per cpu.registers.pc
            some (.ok 24, { cpu with registers.pc := addr }, per)
          else some (.ok 12, cpu, per) :
            Option (Except String Nat × Cpu × Peripherals)).map (fun r => r.1))
        = some (.ok 24)
      rw [hf]
      simp [Bind.bind, Option.bind, Option.map, hzz, hcc, hz, hp]
    · intro hz
      show ((do
          let (addr, cpu, per) ← Cpu.fetch_word cpu per
          if ¬cpu.registers.get_flag_c then do
            let (cpu, per) ← Cpu.push_word cpu per cpu.registers.pc
            some (.ok 24, { cpu with registers.pc := addr }, per)
          else some (.ok 12, cpu, per) :
            Option (Except String Nat × Cpu × Peripherals)).map (fun r => r.1))
        = some (.ok 24)
      rw [hf]
      simp [Bind.bind, Option.bind, Option.map, hzz, hcc, hz, hp]
    · intro hz
      show ((do
          let (addr, cpu, per) ← Cpu.fetch_word cpu per
          if cpu.registers.get_flag_c then do
            let (cpu, per) ← Cpu.push_word cpu per cpu.registers.pc
            some (.ok 24, { cpu with registers.pc := addr }, per)
          else some (.ok 12, cpu, per) :
            Option (Except String Nat × Cpu × Peripherals)).map (fun r => r.1))
        = some (.ok 24)
      rw [hf]
      simp [Bind.bind, Option.bind, Option.map, hzz, hcc, hz, hp]
  · refine ⟨?_, ?_, ?_, ?_⟩
    · intro hz
      show ((do
          if ¬cpu.registers.get_flag_z then do
            let (v, cpu, per) ← Cpu.pop_word cpu per
            some (.ok 20, { cpu with registers.pc := v }, per)
          else some (.ok 8, cpu, per) :
            Option (Except String Nat × Cpu × Peripherals)).map (fun r => r.1))
        = some (.ok 8)
      simp [Bind.bind, Option.bind, Option.map, hz]
    · intro hz
      show ((do
          if cpu.registers.get_flag_z then do
            let (v, cpu, per) ← Cpu.pop_word cpu per
            some (.ok 20, { cpu with registers.pc := v }, per)
          else some (.ok 8, cpu, per) :
            Option (Except String Nat × Cpu × Peripherals)).map (fun r => r.1))
        = some (.ok 8)
      simp [Bind.bind, Option.bind, Option.map, hz]
    · intro hz
      show ((do
          if ¬cpu.registers.get_flag_c then do
            let (v, cpu, per) ← Cpu.pop_word cpu per
            some (.ok 20, { cpu with registers.pc := v }, per)
          else some (.ok 8, cpu, per) :
            Option (Except String Nat × Cpu × Peripherals)).map (fun r => r.1))
        = some (.ok 8)
      simp [Bind.bind, Option.bind, Option.map, hz]
    · intro hz
      show ((do
          if cpu.registers.get_flag_c then do
            let (v, cpu, per) ← Cpu.pop_word cpu per
            some (.ok 20, { cpu with registers.pc := v }, per)
          else some (.ok 8, cpu, per) :
            Option (Except String Nat × Cpu × Peripherals)).map (fun r => r.1))
        = some (.ok 8)
      simp [Bind.bind, Option.bind, Option.map, hz]
  · intro v cpu1 per1 hpop
    refine ⟨?_, ?_, ?_, ?_⟩
    · intro hz
      show ((do
          if ¬cpu.registers.get_flag_z then do
            let (v, cpu, per) ← Cpu.pop_word cpu per
            some (.ok 20, { cpu with registers.pc := v }, per)
          else some (.ok 8, cpu, per) :
            Option (Except String Nat × Cpu × Peripherals)).map (fun r => r.1))
        = some (.ok 20)
      simp [Bind.bind, Option.bind, Option.map, hz, hpop]
    · intro hz
      show ((do
          if cpu.registers.get_flag_z then do
            let (v, cpu, per) ← Cpu.pop_word cpu per
            some (.ok 20, { cpu with registers.pc := v }, per)
          else some (.ok 8, cpu, per) :
            Option (Except String Nat × Cpu × Peripherals)).map (fun r => r.1))
        = some (.ok 20)
      simp [Bind.bind, Option.bind, Option.map, hz, hpop]
    · intro hz
      show ((do
          if ¬cpu.registers.get_flag_c then do
            let (v, cpu, per) ← Cpu.pop_word cpu per
            some (.ok 20, { cpu with registers.pc := v }, per)
          else some (.ok 8, cpu, per) :
            Option (Except String Nat × Cpu × Peripherals)).map (fun r => r.1))
        = some (.ok 20)
      simp [Bind.bind, Option.bind, Option.map, hz, hpop]
    · intro hz
      show ((do
          if cpu.registers.get_flag_c then do
            let (v, cpu, per) ← Cpu.pop_word cpu per
            some (.ok 20, { cpu with registers.pc := v }, per)
          else some (.ok 8, cpu, per) :
            Option (Except String Nat × Cpu × Peripherals)).map (fun r => r.1))
        = some (.ok 20)
      simp [Bind.bind, Option.bind, Option.map, hz, hpop]

/-- C1 counterexample to the original claim: a CALL NZ at 0xC000 costs
24 cycles from `Cpu::step` when taken and 12 when not taken — a
difference of twelve, not four. -/
theorem C1_call_nz_delta_not_four :
    ((Cpu.step c1CpuTaken c1Per).map (fun r => r.1) = some (.ok 24)) ∧
    ((Cpu.step c1CpuNot c1Per).map (fun r => r.1) = some (.ok 12)) ∧
    (24 : Nat) ≠ 12 + 4 :=
  ⟨rfl, rfl, by decide⟩

/-- Concrete instantiation of the amended C1 theorem: the CALL NZ of the
counterexample machine costs 24 cycles taken and 12 not taken. -/
theorem C1_branch_cycle_deltas_witness :
    ((Cpu.execute_instruction c1CpuTaken c1Per 0xC4).map (fun r => r.1)
        = some (.ok 24)) ∧
    ((Cpu.execute_instruction c1CpuNot c1Per 0xC4).map (fun r => r.1)
        = some (.ok 12)) := by
  constructor
  · exact ((C1_branch_cycle_deltas c1CpuTaken c1Per).2.2.2.1
      c1FetchedW.1 c1FetchedW.2.1 c1FetchedW.2.2 rfl
      c1PushedW.1 c1PushedW.2 rfl).1 rfl
  · exact ((C1_branch_cycle_deltas c1CpuNot c1Per).2.2.1
      c1FetchedN.1 c1FetchedN.2.1 c1FetchedN.2.2 rfl).1 rfl

/-! ### C9 — bus decoding totality -/

/-- A `bind` of two present options is present. -/
theorem isSome_bind_of {α β : Type} (o : Option α) (f : α → Option β)
    (ho : o.isSome = true) (hf : ∀ x, (f x).isSome = true) :
    (o.bind f).isSome = true := by
  rcases o with _ | x
  · simp at ho
  · simpa using hf x

/-- The boot ROM read is total: out-of-range and inactive reads return
0xFF, in-range reads hit the 256-byte array. -/
theorem bootrom_read_total (b : BootRom) (addr : Nat) : (b.read addr).isSome = true := by
  unfold BootRom.read
  split_ifs with h1 h2
  · rfl
  · have h : addr < 256 := by omega
    simp [idx, h]
  · rfl

/-- The work-RAM read is total: the index is masked into the 8 KiB
array. -/
theorem wram_read_total (w : WorkRam) (addr : Nat) : (w.read addr).isSome = true := by
  have h : WorkRam.addr_to_index addr < 0x2000 := Nat.lt_succ_of_le Nat.and_le_right
  simp [WorkRam.read, idx, h]

/-- The work-RAM write is total for the same reason. -/
theorem wram_write_total (w : WorkRam) (addr value : Nat) :
    (w.write addr value).isSome = true := by
  have h : WorkRam.addr_to_index addr < 0x2000 := Nat.lt_succ_of_le Nat.and_le_right
  simp [WorkRam.write, h]

/-- A cartridge ROM read is total whenever the header's bank count is
non-zero (every header built by `Cartridge::new` has at least two). -/
theorem cart_read_rom_total (c : Cartridge) (addr : Nat)
    (h : c.header.rom_banks ≠ 0) : (c.read_rom addr).isSome = true := by
  unfold Cartridge.read_rom
  cases hk : c.header.cartridge_type.mbc_kind
  · rfl
  · simp only [Cartridge.read_rom_mbc1]
    split_ifs <;>
      simp [Cartridge.effective_rom_bank_mbc1, rmod, h, Bind.bind, Option.bind]
  · simp only [Cartridge.read_rom_mbc2]
    split_ifs <;> simp [rmod, h, Bind.bind, Option.bind]
  · simp only [Cartridge.read_rom_mbc3]
    split_ifs <;> simp [rmod, h, Bind.bind, Option.bind]
  · simp only [Cartridge.read_rom_mbc5]
    split_ifs <;> simp [rmod, h, Bind.bind, Option.bind]

/-- `Peripherals::read` succeeds on every 16-bit address provided any
loaded cartridge has a non-zero ROM-bank count (as every header parsed
by `Cartridge::new` does). -/
theorem read_total (p : Peripherals) (addr : Nat) (haddr : addr ≤ 0xFFFF)
    (hcart : ∀ c, p.cartridge = some c → c.header.rom_banks ≠ 0) :
    (p.read addr).isSome = true := by
  unfold Peripherals.read
  dsimp only
  by_cases h1 : addr ≤ 0x00FF
  · rw [if_pos h1]
    by_cases hb : p.bootrom.is_active = true
    · rw [if_pos hb]
      exact isSome_bind_of _ _ (bootrom_read_total _ _) (fun x => rfl)
    · rw [if_neg hb]
      rcases hc : p.cartridge with _ | cart
      · simp [hc]
      · simp only [hc]
        exact isSome_bind_of _ _ (cart_read_rom_total _ _ (hcart _ hc)) (fun x => rfl)
  · rw [if_neg h1]
    by_cases h2 : addr ≤ 0x7FFF
    · rw [if_pos h2]
      rcases hc : p.cartridge with _ | cart
      · simp [hc]
      · simp only [hc]
        exact isSome_bind_of _ _ (cart_read_rom_total _ _ (hcart _ hc)) (fun x => rfl)
    · rw [if_neg h2]
      by_cases h3 : addr ≤ 0x9FFF
      · rw [if_pos h3]
        rfl
      · rw [if_neg h3]
        by_cases h4 : addr ≤ 0xBFFF
        · rw [if_pos h4]
          rcases hc : p.cartridge with _ | cart <;> simp [hc]
        · rw [if_neg h4]
          by_cases h5 : addr ≤ 0xDFFF
          · rw [if_pos h5]
            exact isSome_bind_of _ _ (wram_read_total _ _) (fun x => rfl)
          · rw [if_neg h5]
            by_cases h6 : addr ≤ 0xFDFF
            · rw [if_pos h6]
              exact isSome_bind_of _ _ (wram_read_total _ _) (fun x => rfl)
            · rw [if_neg h6]
              by_cases h7 : addr ≤ 0xFE9F
              · rw [if_pos h7]
                refine isSome_bind_of _ _ ?_ (fun x => rfl)
                have hr : addr - 0xFE00 < 160 := by omega
                simp [Ppu.read_oam, idx, hr]
              · rw [if_neg h7]
                by_cases h8 : addr ≤ 0xFEFF
                · rw [if_pos h8]
                  rfl
                · rw [if_neg h8]
                  by_cases h9 : addr ≤ 0xFF7F
                  · rw [if_pos h9]
                    rfl
                  · rw [if_neg h9]
                    by_cases h10 : addr ≤ 0xFFFE
                    · rw [if_pos h10]
                      refine isSome_bind_of _ _ ?_ (fun x => rfl)
                      have hr : addr - 0xFF80 < 0x7F := by omega
                      simp [HighRam.read, HighRam.addr_to_index, idx, hr]
                    · rw [if_neg h10]
                      have h11 : addr = 0xFFFF := by omega
                      rw [if_pos h11]
                      rfl

/-- `Peripherals::write` succeeds on every 16-bit address. -/
theorem write_total (p : Peripherals) (addr value : Nat) (haddr : addr ≤ 0xFFFF) :
    (p.write addr value).isSome = true := by
  unfold Peripherals.write
  dsimp only
  by_cases h1 : addr ≤ 0x00FF
  · rw [if_pos h1]
    rcases hc : p.cartridge with _ | cart <;> simp [hc]
  · rw [if_neg h1]
    by_cases h2 : addr ≤ 0x7FFF
    · rw [if_pos h2]
      rcases hc : p.cartridge with _ | cart <;> simp [hc]
    · rw [if_neg h2]
      by_cases h3 : addr ≤ 0x9FFF
      · rw [if_pos h3]
        rfl
      · rw [if_neg h3]
        by_cases h4 : addr ≤ 0xBFFF
        · rw [if_pos h4]
          rcases hc : p.cartridge with _ | cart <;> simp [hc]
        · rw [if_neg h4]
          by_cases h5 : addr ≤ 0xDFFF
          · rw [if_pos h5]
            exact isSome_bind_of _ _ (wram_write_total _ _ _) (fun x => rfl)
          · rw [if_neg h5]
            by_cases h6 : addr ≤ 0xFDFF
            · rw [if_pos h6]
              exact isSome_bind_of _ _ (wram_write_total _ _ _) (fun x => rfl)
            · rw [if_neg h6]
              by_cases h7 : addr ≤ 0xFE9F
              · rw [if_pos h7]
                refine isSome_bind_of _ _ ?_ (fun x => rfl)
                unfold Ppu.write_oam
                by_cases hm : p.ppu.mode ≠ PpuMode.Drawing ∧ p.ppu.mode ≠ PpuMode.OamScan
                · rw [if_pos hm]
                  dsimp only
                  have hi : addr - 0xFE00 < 160 := by omega
                  rw [if_pos hi]
                  rfl
                · rw [if_neg hm]
                  rfl
              · rw [if_neg h7]
                by_cases h8 : addr ≤ 0xFEFF
                · rw [if_pos h8]
                  rfl
                · rw [if_neg h8]
                  by_cases h9 : addr ≤ 0xFF7F
                  · rw [if_pos h9]
                    rfl
                  · rw [if_neg h9]
                    by_cases h10 : addr ≤ 0xFFFE
                    · rw [if_pos h10]
                      refine isSome_bind_of _ _ ?_ (fun x => rfl)
                      have hr : addr - 0xFF80 < 0x7F := by omega
                      simp [HighRam.write, HighRam.addr_to_index, hr]
                    · rw [if_neg h10]
                      have h11 : addr = 0xFFFF := by omega
                      rw [if_pos h11]
                      rfl

/-- C9: every 16-bit address is decoded by `Peripherals::read` and
`Peripherals::write` without panicking — reads need only the (always
true for parsed headers) fact that a loaded cartridge has a non-zero
ROM-bank count; the echo-region index always lands inside the 8 KiB
work RAM; the OAM index of an OAM-region access is below 160. -/
theorem C9_bus_total :
    (∀ (p : Peripherals) (addr : Nat), addr ≤ 0xFFFF →
      (∀ c, p.cartridge = some c → c.header.rom_banks ≠ 0) →
      (p.read addr).isSome = true) ∧
    (∀ (p : Peripherals) (addr value : Nat), addr ≤ 0xFFFF →
      (p.write addr value).isSome = true) ∧
    (∀ addr : Nat, 0xE000 ≤ addr → addr ≤ 0xFDFF →
      WorkRam.addr_to_index (0xC000 + (addr - 0xE000)) < 0x2000) ∧
    (∀ (ppu : Ppu) (addr : Nat), 0xFE00 ≤ addr → addr ≤ 0xFE9F →
      (ppu.read_oam addr).isSome = true ∧ addr - 0xFE00 < 160) := by
  refine ⟨fun p addr h hc => read_total p addr h hc,
          fun p addr value h => write_total p addr value h, ?_, ?_⟩
  · intro addr h1 h2
    simp only [WorkRam.addr_to_index]
    exact Nat.lt_succ_of_le Nat.and_le_right
  · intro ppu addr h1 h2
    have hr : addr - 0xFE00 < 160 := by omega
    exact ⟨by simp [Ppu.read_oam, idx, hr], hr⟩

/-- Concrete instantiation of C9: an echo-region read, an OAM write and
an OAM read on the fresh bus all succeed. -/
theorem C9_bus_total_witness :
    ((c10PerW.read 0xE123).isSome = true) ∧
    ((c10PerW.write 0xFE05 0x12).isSome = true) ∧
    WorkRam.addr_to_index (0xC000 + (0xE123 - 0xE000)) < 0x2000 ∧
    ((Ppu.new.read_oam 0xFE05).isSome = true ∧ 0xFE05 - 0xFE00 < 160) :=
  ⟨C9_bus_total.1 c10PerW 0xE123 (by decide) (fun c h => Option.noConfusion h),
   C9_bus_total.2.1 c10PerW 0xFE05 0x12 (by decide),
   C9_bus_total.2.2.1 0xE123 (by decide) (by decide),
   C9_bus_total.2.2.2 Ppu.new 0xFE05 (by decide) (by decide)⟩

/-! ### C3 — PPU mode schedule -/

/-- One more dot is one more application of `Ppu::step`. -/
theorem ppuAfter_succ (n : Nat) : ppuAfter (n + 1) = (Ppu.step (ppuAfter n)).1 :=
  Function.iterate_succ_apply' _ _ _

/-- `draw_scanline` touches only the window-line counter: mode, cycle
counter, scanline and the VBlank request survive. -/
theorem draw_scanline_frame (p : Ppu) :
    (p.draw_scanline).mode = p.mode ∧ (p.draw_scanline).cycles = p.cycles ∧
    (p.draw_scanline).scanline = p.scanline ∧
    (p.draw_scanline).vblank_interrupt = p.vblank_interrupt := by
  unfold Ppu.draw_scanline Ppu.draw_window_scanline
  dsimp only
  split_ifs <;> simp

/-- Conditionally drawing (the LCD-enable gate of `Ppu::step`) likewise
preserves those four fields. -/
theorem ite_draw_frame (c : Prop) [Decidable c] (q : Ppu) :
    (if c then q.draw_scanline else q).mode = q.mode ∧
    (if c then q.draw_scanline else q).cycles = q.cycles ∧
    (if c then q.draw_scanline else q).scanline = q.scanline ∧
    (if c then q.draw_scanline else q).vblank_interrupt = q.vblank_interrupt := by
  split_ifs with h
  · exact draw_scanline_frame q
  · exact ⟨rfl, rfl, rfl, rfl⟩

/-- `Ppu::step` in OAM-scan mode. -/
theorem step_oamscan (p : Ppu) (hm : p.mode = PpuMode.OamScan) :
    ((Ppu.step p).1.mode
        = if 80 ≤ p.cycles + 1 then PpuMode.Drawing else PpuMode.OamScan) ∧
    ((Ppu.step p).1.cycles = if 80 ≤ p.cycles + 1 then 0 else p.cycles + 1) ∧
    (Ppu.step p).1.scanline = p.scanline ∧
    (Ppu.step p).1.vblank_interrupt = p.vblank_interrupt := by
  unfold Ppu.step
  dsimp only
  rw [hm]
  by_cases hc : 80 ≤ p.cycles + 1
  · simp [hc]
  · simp [hc]

/-- `Ppu::step` in Drawing mode. -/
theorem step_drawing (p : Ppu) (hm : p.mode = PpuMode.Drawing) :
    ((Ppu.step p).1.mode
        = if 172 ≤ p.cycles + 1 then PpuMode.HBlank else PpuMode.Drawing) ∧
    ((Ppu.step p).1.cycles = if 172 ≤ p.cycles + 1 then 0 else p.cycles + 1) ∧
    (Ppu.step p).1.scanline = p.scanline ∧
    (Ppu.step p).1.vblank_interrupt = p.vblank_interrupt := by
  unfold Ppu.step
  dsimp only
  rw [hm]
  by_cases hc : 172 ≤ p.cycles + 1
  · simp [hc, ite_draw_frame]
  · simp [hc]

/-- `Ppu::step` in HBlank mode: at the 204th dot the scanline advances,
entering VBlank (and requesting its interrupt, returning `true`) when
the new scanline is 144. -/
theorem step_hblank (p : Ppu) (hm : p.mode = PpuMode.HBlank) :
    ((Ppu.step p).1.mode
        = if 204 ≤ p.cycles + 1 then
            (if 144 ≤ p.scanline + 1 then PpuMode.VBlank else PpuMode.OamScan)
          else PpuMode.HBlank) ∧
    ((Ppu.step p).1.cycles = if 204 ≤ p.cycles + 1 then 0 else p.cycles + 1) ∧
    ((Ppu.step p).1.scanline
        = if 204 ≤ p.cycles + 1 then p.scanline + 1 else p.scanline) ∧
    ((Ppu.step p).1.vblank_interrupt
        = if 204 ≤ p.cycles + 1 ∧ 144 ≤ p.scanline + 1 then true
          else p.vblank_interrupt) ∧
    ((Ppu.step p).2
        = if 204 ≤ p.cycles + 1 ∧ 144 ≤ p.scanline + 1 then true else false) := by
  unfold Ppu.step
  dsimp only
  rw [hm]
  by_cases hc : 204 ≤ p.cycles + 1
  · by_cases hs : 144 ≤ p.scanline + 1
    · simp [hc, hs]
    · simp [hc, hs]
  · simp [hc]

/-- `Ppu::step` in VBlank mode: lines of 456 dots; after line 153 the
frame wraps back to scanline 0 in OAM scan. -/
theorem step_vblank (p : Ppu) (hm : p.mode = PpuMode.VBlank) :
    ((Ppu.step p).1.mode
        = if 456 ≤ p.cycles + 1 ∧ 154 ≤ p.scanline + 1 then PpuMode.OamScan
          else PpuMode.VBlank) ∧
    ((Ppu.step p).1.cycles = if 456 ≤ p.cycles + 1 then 0 else p.cycles + 1) ∧
    ((Ppu.step p).1.scanline
        = if 456 ≤ p.cycles + 1 then
            (if 154 ≤ p.scanline + 1 then 0 else p.scanline + 1)
          else p.scanline) ∧
    (Ppu.step p).1.vblank_interrupt = p.vblank_interrupt := by
  unfold Ppu.step
  dsimp only
  rw [hm]
  by_cases hc : 456 ≤ p.cycles + 1
  · by_cases hs : 154 ≤ p.scanline + 1
    · simp [hc, hs]
    · simp [hc, hs]
  · simp [hc]

/-- The PPU trajectory of the first frame: after `n` dots the scanline
is `n / 456`, the VBlank request is set exactly from dot 65664 on, and
within a visible line the mode runs OAM scan (cycle counter = dot
offset), Drawing (counter = offset - 80) and HBlank
(counter = offset - 252), while lines 144 and above sit in VBlank with
the counter equal to the dot offset. -/
theorem ppu_inv : ∀ n, n ≤ 70223 →
    (ppuAfter n).scanline = n / 456 ∧
    (n < 65664 → (ppuAfter n).vblank_interrupt = false) ∧
    (65664 ≤ n → (ppuAfter n).vblank_interrupt = true) ∧
    (n / 456 < 144 → n % 456 < 80 →
        (ppuAfter n).mode = PpuMode.OamScan ∧ (ppuAfter n).cycles = n % 456) ∧
    (n / 456 < 144 → 80 ≤ n % 456 → n % 456 < 252 →
        (ppuAfter n).mode = PpuMode.Drawing ∧ (ppuAfter n).cycles = n % 456 - 80) ∧
    (n / 456 < 144 → 252 ≤ n % 456 →
        (ppuAfter n).mode = PpuMode.HBlank ∧ (ppuAfter n).cycles = n % 456 - 252) ∧
    (144 ≤ n / 456 →
        (ppuAfter n).mode = PpuMode.VBlank ∧ (ppuAfter n).cycles = n % 456) := by
  intro n
  induction n with
  | zero =>
    intro _
    exact ⟨rfl, fun _ => rfl, fun h => absurd h (by decide),
           fun _ _ => ⟨rfl, rfl⟩, fun _ h _ => absurd h (by decide),
           fun _ h => absurd h (by decide), fun h => absurd h (by decide)⟩
  | succ n ih =>
    intro hn1
    obtain ⟨hsc, hv0, hv1, hoam, hdraw, hhb, hvbm⟩ := ih (by omega)
    rw [ppuAfter_succ]
    rcases Nat.lt_or_ge (n / 456) 144 with hly | hly
    · rcases Nat.lt_or_ge (n % 456) 80 with hd | hd
      · -- OAM scan region
        obtain ⟨hm, hc⟩ := hoam hly hd
        obtain ⟨sm, sc, ss, sv⟩ := step_oamscan _ hm
        rw [hc] at sm sc
        have hs2 : (Ppu.step (ppuAfter n)).1.scanline = n / 456 := by rw [ss, hsc]
        have hv2 : (Ppu.step (ppuAfter n)).1.vblank_interrupt = false := by
          rw [sv]
          exact hv0 (by omega)
        by_cases hE : 80 ≤ n % 456 + 1
        · have hm2 : (Ppu.step (ppuAfter n)).1.mode = PpuMode.Drawing := by
            rw [sm, if_pos hE]
          have hc2 : (Ppu.step (ppuAfter n)).1.cycles = 0 := by
            rw [sc, if_pos hE]
          refine ⟨?_, ?_, ?_, ?_, ?_, ?_, ?_⟩
          · rw [hs2]
            omega
          · intro h
            exact hv2
          · intro h
            exfalso
            omega
          · intro h1 h2
            exfalso
            omega
          · intro h1 h2 h3
            refine ⟨hm2, ?_⟩
            rw [hc2]
            omega
          · intro h1 h2
            exfalso
            omega
          · intro h1
            exfalso
            omega
        · have hm2 : (Ppu.step (ppuAfter n)).1.mode = PpuMode.OamScan := by
            rw [sm, if_neg hE]
          have hc2 : (Ppu.step (ppuAfter n)).1.cycles = n % 456 + 1 := by
            rw [sc, if_neg hE]
          refine ⟨?_, ?_, ?_, ?_, ?_, ?_, ?_⟩
          · rw [hs2]
            omega
          · intro h
            exact hv2
          · intro h
            exfalso
            omega
          · intro h1 h2
            refine ⟨hm2, ?_⟩
            rw [hc2]
            omega
          · intro h1 h2 h3
            exfalso
            omega
          · intro h1 h2
            exfalso
            omega
          · intro h1
            exfalso
            omega
      · rcases Nat.lt_or_ge (n % 456) 252 with hd2 | hd2
        · -- Drawing region
          obtain ⟨hm, hc⟩ := hdraw hly hd hd2
          obtain ⟨sm, sc, ss, sv⟩ := step_drawing _ hm
          rw [hc] at sm sc
          have hs2 : (Ppu.step (ppuAfter n)).1.scanline = n / 456 := by rw [ss, hsc]
          have hv2 : (Ppu.step (ppuAfter n)).1.vblank_interrupt = false := by
            rw [sv]
            exact hv0 (by omega)
          by_cases hE : 172 ≤ n % 456 - 80 + 1
          · have hm2 : (Ppu.step (ppuAfter n)).1.mode = PpuMode.HBlank := by
              rw [sm, if_pos hE]
            have hc2 : (Ppu.step (ppuAfter n)).1.cycles = 0 := by
              rw [sc, if_pos hE]
            refine ⟨?_, ?_, ?_, ?_, ?_, ?_, ?_⟩
            · rw [hs2]
              omega
            · intro h
              exact hv2
            · intro h
              exfalso
              omega
            · intro h1 h2
              exfalso
              omega
            · intro h1 h2 h3
              exfalso
              omega
            · intro h1 h2
              refine ⟨hm2, ?_⟩
              rw [hc2]
              omega
            · intro h1
              exfalso
              omega
          · have hm2 : (Ppu.step (ppuAfter n)).1.mode = PpuMode.Drawing := by
              rw [sm, if_neg hE]
            have hc2 : (Ppu.step (ppuAfter n)).1.cycles = n % 456 - 80 + 1 := by
              rw [sc, if_neg hE]
            refine ⟨?_, ?_, ?_, ?_, ?_, ?_, ?_⟩
            · rw [hs2]
              omega
            · intro h
              exact hv2
            · intro h
              exfalso
              omega
            · intro h1 h2
              exfalso
              omega
            · intro h1 h2 h3
              refine ⟨hm2, ?_⟩
              rw [hc2]
              omega
            · intro h1 h2
              exfalso
              omega
            · intro h1
              exfalso
              omega
        · -- HBlank region
          obtain ⟨hm, hc⟩ := hhb hly hd2
          obtain ⟨sm, sc, ss, sv, _⟩ := step_hblank _ hm
          rw [hc] at sm sc
          rw [hc, hsc] at sv
          rw [hsc] at sm
          rw [hc, hsc] at ss
          by_cases hE : 204 ≤ n % 456 - 252 + 1
          · by_cases hV : 144 ≤ n / 456 + 1
            · have hm2 : (Ppu.step (ppuAfter n)).1.mode = PpuMode.VBlank := by
                rw [sm, if_pos hE, if_pos hV]
              have hc2 : (Ppu.step (ppuAfter n)).1.cycles = 0 := by
                rw [sc, if_pos hE]
              have hs2 : (Ppu.step (ppuAfter n)).1.scanline = n / 456 + 1 := by
                rw [ss, if_pos hE]
              have hv2 : (Ppu.step (ppuAfter n)).1.vblank_interrupt = true := by
                rw [sv, if_pos ⟨hE, hV⟩]
              refine ⟨?_, ?_, ?_, ?_, ?_, ?_, ?_⟩
              · rw [hs2]
                omega
              · intro h
                exfalso
                omega
              · intro h
                exact hv2
              · intro h1 h2
                exfalso
                omega
              · intro h1 h2 h3
                exfalso
                omega
              · intro h1 h2
                exfalso
                omega
              · intro h1
                refine ⟨hm2, ?_⟩
                rw [hc2]
                omega
            · have hm2 : (Ppu.step (ppuAfter n)).1.mode = PpuMode.OamScan := by
                rw [sm, if_pos hE, if_neg hV]
              have hc2 : (Ppu.step (ppuAfter n)).1.cycles = 0 := by
                rw [sc, if_pos hE]
              have hs2 : (Ppu.step (ppuAfter n)).1.scanline = n / 456 + 1 := by
                rw [ss, if_pos hE]
              have hv2 : (Ppu.step (ppuAfter n)).1.vblank_interrupt = false := by
                rw [sv, if_neg (fun hand => hV hand.2)]
                exact hv0 (by omega)
              refine ⟨?_, ?_, ?_, ?_, ?_, ?_, ?_⟩
              · rw [hs2]
                omega
              · intro h
                exact hv2
              · intro h
                exfalso
                omega
              · intro h1 h2
                refine ⟨hm2, ?_⟩
                rw [hc2]
                omega
              · intro h1 h2 h3
                exfalso
                omega
              · intro h1 h2
                exfalso
                omega
              · intro h1
                exfalso
                omega
          · have hm2 : (Ppu.step (ppuAfter n)).1.mode = PpuMode.HBlank := by
              rw [sm, if_neg hE]
            have hc2 : (Ppu.step (ppuAfter n)).1.cycles = n % 456 - 252 + 1 := by
              rw [sc, if_neg hE]
            have hs2 : (Ppu.step (ppuAfter n)).1.scanline = n / 456 := by
              rw [ss, if_neg hE]
            have hv2 : (Ppu.step (ppuAfter n)).1.vblank_interrupt = false := by
              rw [sv, if_neg (fun hand => hE hand.1)]
              exact hv0 (by omega)
            refine ⟨?_, ?_, ?_, ?_, ?_, ?_, ?_⟩
            · rw [hs2]
              omega
            · intro h
              exact hv2
            · intro h
              exfalso
              omega
            · intro h1 h2
              exfalso
              omega
            · intro h1 h2 h3
              exfalso
              omega
            · intro h1 h2
              refine ⟨hm2, ?_⟩
              rw [hc2]
              omega
            · intro h1
              exfalso
              omega
    · -- VBlank region
      obtain ⟨hm, hc⟩ := hvbm hly
      obtain ⟨sm, sc, ss, sv⟩ := step_vblank _ hm
      rw [hc, hsc] at sm
      rw [hc] at sc
      rw [hc, hsc] at ss
      by_cases hE : 456 ≤ n % 456 + 1
      · by_cases hV : 154 ≤ n / 456 + 1
        · exfalso
          omega
        · have hm2 : (Ppu.step (ppuAfter n)).1.mode = PpuMode.VBlank := by
            rw [sm, if_neg (fun hand => hV hand.2)]
          have hc2 : (Ppu.step (ppuAfter n)).1.cycles = 0 := by
            rw [sc, if_pos hE]
          have hs2 : (Ppu.step (ppuAfter n)).1.scanline = n / 456 + 1 := by
            rw [ss, if_pos hE, if_neg hV]
          have hv2 : (Ppu.step (ppuAfter n)).1.vblank_interrupt = true := by
            rw [sv]
            exact hv1 (by omega)
          refine ⟨?_, ?_, ?_, ?_, ?_, ?_, ?_⟩
          · rw [hs2]
            omega
          · intro h
            exfalso
            omega
          · intro h
            exact hv2
          · intro h1 h2
            exfalso
            omega
          · intro h1 h2 h3
            exfalso
            omega
          · intro h1 h2
            exfalso
            omega
          · intro h1
            refine ⟨hm2, ?_⟩
            rw [hc2]
            omega
      · have hm2 : (Ppu.step (ppuAfter n)).1.mode = PpuMode.VBlank := by
          rw [sm, if_neg (fun hand => hE hand.1)]
        have hc2 : (Ppu.step (ppuAfter n)).1.cycles = n % 456 + 1 := by
          rw [sc, if_neg hE]
        have hs2 : (Ppu.step (ppuAfter n)).1.scanline = n / 456 := by
          rw [ss, if_neg hE]
        have hv2 : (Ppu.step (ppuAfter n)).1.vblank_interrupt = true := by
          rw [sv]
          exact hv1 (by omega)
        refine ⟨?_, ?_, ?_, ?_, ?_, ?_, ?_⟩
        · rw [hs2]
          omega
        · intro h
          exfalso
          omega
        · intro h
          exact hv2
        · intro h1 h2
          exfalso
          omega
        · intro h1 h2 h3
          exfalso
          omega
        · intro h1 h2
          exfalso
          omega
        · intro h1
          refine ⟨hm2, ?_⟩
          rw [hc2]
          omega

/-- C3: stepping the PPU from power-on reset to dot position
`456 * ly + d` (scanline ly, dot offset d) puts it on scanline `ly` in
exactly the mode `get_expected_mode ly d` — VBlank for ly at least 144,
else OAM scan below dot 80, Drawing below dot 252, HBlank beyond; the
VBlank interrupt request is clear before dot 65664 (the start of
scanline 144), the step entering that dot returns `true`, and at dot
65664 the request is set with the scanline at 144. -/
theorem C3_ppu_mode_schedule :
    (∀ ly d : Nat, ly ≤ 153 → d ≤ 455 →
      (ppuAfter (456 * ly + d)).scanline = ly ∧
      (ppuAfter (456 * ly + d)).mode = get_expected_mode ly d) ∧
    (∀ n, n < 65664 → (ppuAfter n).vblank_interrupt = false) ∧
    (Ppu.step (ppuAfter 65663)).2 = true ∧
    (ppuAfter 65664).vblank_interrupt = true ∧
    (ppuAfter 65664).scanline = 144 := by
  refine ⟨?_, ?_, ?_, ?_, ?_⟩
  · intro ly d hly hd
    obtain ⟨hsc, hv0, hv1, hoam, hdraw, hhb, hvbm⟩ :=
      ppu_inv (456 * ly + d) (by omega)
    constructor
    · rw [hsc]
      omega
    · unfold get_expected_mode
      by_cases h144 : 144 ≤ ly
      · rw [if_pos (by omega)]
        exact (hvbm (by omega)).1
      · rw [if_neg (by omega)]
        by_cases h80 : d < 80
        · rw [if_pos h80]
          exact (hoam (by omega) (by omega)).1
        · by_cases h252 : d < 252
          · rw [if_neg h80, if_pos (by omega)]
            exact (hdraw (by omega) (by omega) (by omega)).1
          · rw [if_neg h80, if_neg (by omega)]
            exact (hhb (by omega) (by omega)).1
  · intro n hn
    exact (ppu_inv n (by omega)).2.1 hn
  · obtain ⟨hsc, _, _, _, _, hhb, _⟩ := ppu_inv 65663 (by norm_num)
    obtain ⟨hm, hc⟩ := hhb (by norm_num) (by norm_num)
    have hs := (step_hblank _ hm).2.2.2.2
    rw [hc, hsc] at hs
    rw [hs, if_pos (by norm_num)]
  · exact (ppu_inv 65664 (by norm_num)).2.2.1 (by norm_num)
  · rw [(ppu_inv 65664 (by norm_num)).1]

/-- Concrete instantiation of C3: scanline 100, dot 300 is mid-line in
HBlank, and scanline 150 sits in VBlank. -/
theorem C3_ppu_mode_schedule_witness :
    ((ppuAfter (456 * 100 + 300)).scanline = 100 ∧
      (ppuAfter (456 * 100 + 300)).mode = get_expected_mode 100 300) ∧
    ((ppuAfter (456 * 150 + 17)).scanline = 150 ∧
      (ppuAfter (456 * 150 + 17)).mode = get_expected_mode 150 17) :=
  ⟨C3_ppu_mode_schedule.1 100 300 (by decide) (by decide),
   C3_ppu_mode_schedule.1 150 17 (by decide) (by decide)⟩

end Rustboy
